import Mathlib

/-!
Verification development for the forge-cad geometric classification pipeline.

The Python analyzer stages (Z-profile extraction, variant differencing,
topology classification, feature detection, pattern detection, symmetry
detection, boundary detection) are shallowly embedded below.  Geometry is
represented with exact rationals (every IEEE float is a rational); formulas
that the source computes with `math.sqrt`, `math.pi`, `acos`, `atan2` are
idealised over the reals.  Free-text note/description fields that no
property depends on are omitted from the record embeddings.
-/

set_option maxHeartbeats 1000000

open scoped Classical

namespace ForgeCad

/-! ### Python numeric helpers -/

/-- Round-half-to-even of a rational to an integer (Python `round` semantics
for `float`). -/
def roundEvenQ (x : ℚ) : ℤ :=
  let f := ⌊x⌋
  let r := x - f
  if r < 1/2 then f
  else if 1/2 < r then f + 1
  else if 2 ∣ f then f else f + 1

/-- Python `round(x, n)` on rationals. -/
def pyRound (n : ℕ) (x : ℚ) : ℚ := (roundEvenQ (x * 10 ^ n) : ℚ) / 10 ^ n

/-- Python `round(x, 3)`: round to 3 decimal places. -/
def round3 : ℚ → ℚ := pyRound 3

/-- Round-half-to-even of a real to an integer (Python `round` on floats,
idealised over the reals). -/
noncomputable def roundEvenR (x : ℝ) : ℤ :=
  let f := ⌊x⌋
  let r := x - f
  if r < 1/2 then f
  else if 1/2 < r then f + 1
  else if 2 ∣ f then f else f + 1

/-- Python `round(x, n)` on reals. -/
noncomputable def rpyRound (n : ℕ) (x : ℝ) : ℝ := (roundEvenR (x * 10 ^ n) : ℝ) / 10 ^ n

/-- `q` is an integer multiple of `1/1000` (a value rounded to 3 decimals). -/
def Mult1000 (q : ℚ) : Prop := ∃ k : ℤ, q = (k : ℚ) / 1000

/-! ### Python string helpers -/

/-- ASCII lower-casing, Python `str.lower`. -/
def pyLower (s : String) : String := String.mk (s.toList.map Char.toLower)

/-- Does the second character list start with the first one? -/
def leadsWith : List Char → List Char → Bool
  | [], _ => true
  | _ :: _, [] => false
  | a :: as, b :: bs => a == b && leadsWith as bs

/-- Does `hay` contain `needle` as a contiguous run (Python `needle in hay`)? -/
def containsRun (needle : List Char) : List Char → Bool
  | [] => needle.isEmpty
  | h :: t => leadsWith needle (h :: t) || containsRun needle t

/-- Python `needle in hay` on strings. -/
def strContainsSub (hay needle : String) : Bool := containsRun needle.toList hay.toList

/-- Word characters of the regex class `\w` (ASCII). -/
def isWordChar (c : Char) : Bool := c.isAlphanum || c == '_'

/-- Maximal runs of word characters, the matches of `re.findall(r"\w+", s)`. -/
def wordRuns : List Char → List (List Char)
  | [] => []
  | c :: cs =>
    if isWordChar c then
      (c :: cs.takeWhile isWordChar) :: wordRuns (cs.dropWhile isWordChar)
    else wordRuns cs
termination_by l => l.length
decreasing_by
  · simp only [List.length_cons]
    exact Nat.lt_succ_of_le (List.dropWhile_sublist _).length_le
  · simp

/-- `re.findall(r"\w+", s.lower())`: the lower-cased word tokens of a name. -/
def tokenize (s : String) : List String :=
  (wordRuns (pyLower s).toList).map (fun cs => String.mk cs)

/-! ### Python container helpers -/

/-- One insertion into a Python `dict` kept as an ordered association list:
an existing key keeps its position but takes the new value, a new key goes
to the back. -/
def pyDictInsert {α : Type} (l : List (String × α)) (k : String) (v : α) :
    List (String × α) :=
  if l.any (fun p => p.1 == k) then
    l.map (fun p => if p.1 == k then (k, v) else p)
  else l ++ [(k, v)]

/-- Python `dict` built from a list of key/value pairs (insertion order,
later values overwrite earlier ones). -/
def pyDictOf {α : Type} (xs : List (String × α)) : List (String × α) :=
  xs.foldl (fun acc p => pyDictInsert acc p.1 p.2) []

/-- Python `sorted(set(xs))` on rationals. -/
def pySortedSet (xs : List ℚ) : List ℚ := (xs.dedup).insertionSort (· ≤ ·)

/-- First maximum of a list of rationals together with the preceding fold
state, Python `max(..., key=...)` keeping the earliest maximal element. -/
def foldMaxBy {α : Type} (f : α → ℚ) (x : α) (xs : List α) : α :=
  xs.foldl (fun acc q => if f acc < f q then q else acc) x

/-! ### Mesh records (loader output consumed by the pipeline)

`LoadedMesh` carries the loader fields the pipeline reads, plus the facets
of the underlying `trimesh` object the stages probe.  Each probe that can
raise in Python is an `Except`-valued facet: `.error` is an exception at
that probe, `none` on the `Option` facets is a missing attribute
(`hasattr` false). -/

abbrev Vec3 := ℚ × ℚ × ℚ

/-- Face-adjacency data used by fillet/chamfer detection: the pair of face
normals across each shared edge, and the edge endpoint coordinates. -/
structure EdgeData where
  normalPairs : List ((ℝ × ℝ × ℝ) × (ℝ × ℝ × ℝ))
  edgeVerts : List ((ℝ × ℝ × ℝ) × (ℝ × ℝ × ℝ))

structure LoadedMesh where
  name : String
  path : String
  fileType : String
  autoRole : String
  zMin : ℚ
  zMax : ℚ
  volume : ℚ
  boundingBox : Option (Vec3 × Vec3)
  /-- the `vertices` attribute: absent, raising, or the vertex array -/
  vertexData : Option (Except Unit (List Vec3))
  /-- `tm.section` + `to_planar` + `discrete` at a given plane height:
  an exception anywhere in that block, or `none` for an empty section,
  or the list of discrete 2-D paths -/
  sectionAt : ℚ → Except Unit (Option (List (List (ℚ × ℚ))))
  /-- `face_adjacency`/`face_normals`/`face_adjacency_edges` data -/
  edgeData : Option (Except Unit EdgeData)
  /-- the `bounds` attribute read by the symmetry detector -/
  boundsData : Except Unit (Vec3 × Vec3)

/-- The non-DXF meshes a stage operates on. -/
def nonDxf (meshes : List LoadedMesh) : List LoadedMesh :=
  meshes.filter (fun m => m.fileType != "dxf")

/-! ### Stage 1: Z-profile extraction (`z_profile.py`) -/

def Z_CLUSTER_TOLERANCE : ℚ := 1/10

structure ZProfile where
  meshName : String
  zMin : ℚ
  zMax : ℚ
  zThickness : ℚ
  significantLevels : List ℚ := []
  isFlatSlab : Bool := false
deriving DecidableEq

structure ZProfileResult where
  profiles : List (String × ZProfile)
  allLevels : List ℚ
  bodyZMin : ℚ
  bodyZMax : ℚ
  bodyCandidate : Option String
deriving DecidableEq

/-- Left edge of histogram bin `i` of `np.histogram(-, bins = n, range = (lo, hi))`. -/
def binLo (lo hi : ℚ) (n i : ℕ) : ℚ := lo + (hi - lo) * i / n

/-- Membership of a value in histogram bin `i` (right-open except the last bin). -/
def inBin (lo hi : ℚ) (n i : ℕ) (z : ℚ) : Bool :=
  if i + 1 = n then decide (binLo lo hi n i ≤ z ∧ z ≤ hi)
  else decide (binLo lo hi n i ≤ z ∧ z < binLo lo hi n (i + 1))

/-- Vertex count of histogram bin `i`. -/
def histCount (zVals : List ℚ) (lo hi : ℚ) (n i : ℕ) : ℕ :=
  (zVals.filter (inBin lo hi n i)).length

/-- One clustering sweep (tail of the loop): append `f x` whenever `x` is
further than the cluster tolerance from the last appended value. -/
def clusterAux (f : ℚ → ℚ) (last : ℚ) : List ℚ → List ℚ
  | [] => []
  | x :: xs =>
    if Z_CLUSTER_TOLERANCE < |x - last| then f x :: clusterAux f (f x) xs
    else clusterAux f last xs

/-- The clustering loop of the source: the first element is always appended
(through `f`), later ones only when further than the tolerance from the
last appended value. -/
def clusterPass (f : ℚ → ℚ) : List ℚ → List ℚ
  | [] => []
  | x :: xs => f x :: clusterAux f (f x) xs

/-- `ZProfileExtractor._find_significant_levels`. -/
def findSignificantLevels (zVals : List ℚ) (zMin zMax : ℚ)
    (nBins : ℕ := 200) : List ℚ :=
  if zMax ≤ zMin then [round3 zMin]
  else
    let threshold : ℕ := max 1 (Int.toNat ⌊(zVals.length : ℚ) / 100⌋)
    let candidates := (List.range nBins).filterMap (fun i =>
      if threshold ≤ histCount zVals zMin zMax nBins i then
        some ((binLo zMin zMax nBins i + binLo zMin zMax nBins (i + 1)) / 2)
      else none)
    let clustered := clusterPass round3 candidates
    let raw := pySortedSet (round3 zMin :: round3 zMax :: clustered)
    clusterPass id raw

/-- The degenerate profile returned when the mesh has no usable vertex data. -/
def fallbackProfile (m : LoadedMesh) : ZProfile :=
  { meshName := m.name, zMin := m.zMin, zMax := m.zMax,
    zThickness := m.zMax - m.zMin }

/-- `ZProfileExtractor._profile_one`: profile a single mesh, falling back to
the precomputed Z-range on a missing attribute or any exception (including
`np.min` of an empty vertex array). -/
def profileOne (m : LoadedMesh) : ZProfile :=
  match m.vertexData with
  | none => fallbackProfile m
  | some (.error _) => fallbackProfile m
  | some (.ok verts) =>
    match verts.map (fun v => v.2.2) with
    | [] => fallbackProfile m
    | z :: zs =>
      let zVals := z :: zs
      let zMin := zVals.foldl min z
      let zMax := zVals.foldl max z
      let zThickness := zMax - zMin
      let significant := findSignificantLevels zVals zMin zMax
      { meshName := m.name, zMin := zMin, zMax := zMax,
        zThickness := zThickness,
        significantLevels := significant,
        isFlatSlab := decide (significant.length ≤ 2) && decide (0 < zThickness) }

/-- `ZProfileExtractor._cluster_levels`: merge all per-mesh level lists. -/
def clusterLevels (profiles : List (String × ZProfile)) : List ℚ :=
  let allRaw := profiles.foldr
    (fun p acc => (p.2.significantLevels ++ [p.2.zMin, p.2.zMax]) ++ acc) []
  if allRaw.isEmpty then [0]
  else clusterPass round3 (pySortedSet allRaw)

/-- `ZProfileExtractor._find_body`: the mesh with the tallest Z-range,
earliest wins ties. -/
def findBody (profiles : List (String × ZProfile)) :
    Option String × ℚ × ℚ :=
  match profiles with
  | [] => (none, 0, 0)
  | p :: ps =>
    let best := foldMaxBy (fun q => q.2.zThickness) p ps
    (some best.1, best.2.zMin, best.2.zMax)

/-- `ZProfileExtractor.extract` (with `_extract_profiles`): the public
entry point of stage 1. -/
def zExtract (meshes : List LoadedMesh) : ZProfileResult :=
  let profs := pyDictOf ((nonDxf meshes).map (fun m => (m.name, profileOne m)))
  let body := findBody profs
  { profiles := profs, allLevels := clusterLevels profs,
    bodyZMin := body.2.1, bodyZMax := body.2.2, bodyCandidate := body.1 }

/-! ### Stage 2: Variant differencing (`variant_diff.py`) -/

/-- The ordered variant keyword table, first match wins. -/
def VARIANT_KEYWORDS : List (String × String) :=
  [("removed", "subtracted"),
   ("no holes", "holes_removed"),
   ("without", "subtracted"),
   ("except", "feature_present"),
   ("only", "feature_isolated")]

/-- `VariantDiffer._classify_variant_name`. -/
def classifyVariantName (name : String) : Option String :=
  (VARIANT_KEYWORDS.find? (fun kv => strContainsSub (pyLower name) kv.1)).map (·.2)

/-- `len(set(a) & set(b))` over the word tokens of two names. -/
def overlapCount (a b : String) : ℕ :=
  ((tokenize a).dedup.filter (fun t => (tokenize b).contains t)).length

/-- `VariantDiffer._find_base`: the non-variant name with the greatest token
overlap, earliest wins ties, `none` when every overlap is zero. -/
def findBase (variantName : String) (allNames : List String) : Option String :=
  (allNames.foldl
    (fun (acc : ℕ × Option String) candidate =>
      if candidate == variantName then acc
      else if (classifyVariantName candidate).isSome then acc
      else
        let ov := overlapCount variantName candidate
        if acc.1 < ov then (ov, some candidate) else acc)
    (0, none)).2

structure VariantPair where
  baseName : String
  variantName : String
  relationship : String
  volumeDiff : ℚ := 0
  volumeDiffPct : ℚ := 0
  bboxDiff : Option Vec3 := none
deriving DecidableEq

/-- `VariantDiffer._detect_pairs` over the mesh dict's key list. -/
def detectPairs (names : List String) : List VariantPair :=
  names.filterMap (fun name =>
    match classifyVariantName name with
    | none => none
    | some rel =>
      match findBase name names with
      | none => none
      | some base =>
        if base ≠ "" ∧ base ≠ name then
          some { baseName := base, variantName := name, relationship := rel }
        else none)

/-- Per-axis bounding-box extent difference. -/
def bboxExtentDiff (b : Vec3 × Vec3) (v : Vec3 × Vec3) : Vec3 :=
  ((b.2.1 - b.1.1) - (v.2.1 - v.1.1),
   (b.2.2.1 - b.1.2.1) - (v.2.2.1 - v.1.2.1),
   (b.2.2.2 - b.1.2.2) - (v.2.2.2 - v.1.2.2))

/-- The per-pair body of `VariantDiffer._compute_volume_diffs`: fill in the
volume/bbox differences of one pair and return its feature-volume entry,
skipping pairs whose meshes are missing from the dict. -/
def updatePair (dict : List (String × LoadedMesh)) (p : VariantPair) :
    VariantPair × Option (String × ℚ) :=
  match dict.lookup p.baseName, dict.lookup p.variantName with
  | some bm, some vm =>
    let vd := bm.volume - vm.volume
    let pct := if 0 < bm.volume then 100 * |vd| / bm.volume else p.volumeDiffPct
    let bbox := match bm.boundingBox, vm.boundingBox with
      | some bb, some vb => some (bboxExtentDiff bb vb)
      | _, _ => p.bboxDiff
    ({ p with volumeDiff := vd, volumeDiffPct := pct, bboxDiff := bbox },
      if p.relationship = "subtracted" ∨ p.relationship = "holes_removed" then
        some (p.baseName ++ "_vs_" ++ p.variantName, |vd|)
      else none)
  | _, _ => (p, none)

/-- One serialised pair of `VariantDiffer.compute`. -/
structure VariantPairOut where
  base : String
  variant : String
  relationship : String
  volumeDiff : ℚ
  volumeDiffPct : ℚ
  bboxDiff : Option Vec3
deriving DecidableEq

structure VariantDiffOut where
  pairs : List VariantPairOut
  featureVolumes : List (String × ℚ)
deriving DecidableEq

/-- `VariantDiffer.compute` (with `_compute`): the public entry point of
stage 2. -/
def variantCompute (meshes : List LoadedMesh) : VariantDiffOut :=
  let dict := pyDictOf ((nonDxf meshes).map (fun m => (m.name, m)))
  let upd := (detectPairs (dict.map (·.1))).map (updatePair dict)
  { pairs := upd.map (fun u =>
      { base := u.1.baseName, variant := u.1.variantName,
        relationship := u.1.relationship,
        volumeDiff := pyRound 4 u.1.volumeDiff,
        volumeDiffPct := pyRound 2 u.1.volumeDiffPct,
        bboxDiff := u.1.bboxDiff }),
    featureVolumes := (pyDictOf (upd.filterMap (·.2))).map
      (fun kv => (kv.1, pyRound 4 kv.2)) }

/-! ### Stage 3: Topology classification (`topology.py`) -/

def Z_SUBSET_TOLERANCE : ℚ := 1/2

/-- A mesh with a topology role assigned.  The free-text `notes`
explanations of the source are omitted. -/
structure ClassifiedComponent where
  name : String
  role : String
  zMin : ℚ
  zMax : ℚ
  sourceFile : String
  csgOrder : ℕ := 0
deriving DecidableEq

/-- `TopologyClassifier._classify_role`. -/
def classifyRole (zMin zMax : ℚ) (isBodyCandidate : Bool)
    (bodyZMin bodyZMax : ℚ) (autoRole : String) : String :=
  if isBodyCandidate || autoRole == "full_assembly" then "base_solid"
  else if autoRole == "variant_removed" then "variant"
  else if 0 < bodyZMax - bodyZMin ∧
      bodyZMin - Z_SUBSET_TOLERANCE ≤ zMin ∧
      zMax ≤ bodyZMax - Z_SUBSET_TOLERANCE ∧
      zMax - zMin < (bodyZMax - bodyZMin) - Z_SUBSET_TOLERANCE then "pocket_fill"
  else if autoRole == "isolated_component" then "additive"
  else "unknown"

/-- The role-priority table of `TopologyClassifier._sort_key`. -/
def roleOrder (role : String) : ℕ :=
  if role == "base_solid" then 0
  else if role == "pocket_fill" then 1
  else if role == "additive" then 2
  else if role == "subtractive" then 3
  else if role == "variant" then 4
  else if role == "unknown" then 5
  else 99

/-- The sort relation of `classify`: role priority, then Z-max ascending. -/
def csgSortLe (c d : ClassifiedComponent) : Prop :=
  roleOrder c.role < roleOrder d.role ∨
    (roleOrder c.role = roleOrder d.role ∧ c.zMax ≤ d.zMax)

instance : DecidableRel csgSortLe := fun c d => by
  unfold csgSortLe; infer_instance

/-- `TopologyClassifier.classify`: the public entry point of stage 3.
The sort of the source is Python's stable `list.sort`, realised here by the
stable `insertionSort`. -/
def topoClassify (meshes : List LoadedMesh) (zp : ZProfileResult) :
    List ClassifiedComponent :=
  let dict := pyDictOf ((nonDxf meshes).map (fun m => (m.name, m)))
  let comps := dict.map (fun nm =>
    let zRange := match zp.profiles.lookup nm.1 with
      | some p => (p.zMin, p.zMax)
      | none => (nm.2.zMin, nm.2.zMax)
    { name := nm.1,
      role := classifyRole zRange.1 zRange.2 (zp.bodyCandidate == some nm.1)
        zp.bodyZMin zp.bodyZMax nm.2.autoRole,
      zMin := zRange.1, zMax := zRange.2,
      sourceFile := nm.2.path : ClassifiedComponent })
  (comps.insertionSort csgSortLe).enum.map
    (fun ic => { ic.2 with csgOrder := ic.1 })

/-! ### Stage 6: Boundary detection (`boundary_detect.py`) -/

def COINCIDENCE_TOLERANCE : ℚ := 1/20

/-- A face boundary shared between two components.  The free-text
`description` field of the source is omitted. -/
structure CoincidentBoundary where
  componentA : String
  componentB : String
  axis : String
  value : ℚ
  needsEps : Bool := true
deriving DecidableEq

/-- `BoundaryDetector._compare_z_ranges`: fallback comparison when a
bounding box is missing. -/
def compareZRanges (ca cb : ClassifiedComponent) : List CoincidentBoundary :=
  (if |ca.zMin - cb.zMin| < COINCIDENCE_TOLERANCE then
    [{ componentA := ca.name, componentB := cb.name, axis := "Z",
       value := ca.zMin }] else []) ++
  (if |ca.zMax - cb.zMax| < COINCIDENCE_TOLERANCE then
    [{ componentA := ca.name, componentB := cb.name, axis := "Z",
       value := ca.zMax }] else [])

/-- The two per-axis coincidence checks of `_compare_pair` for one axis. -/
def axisChecks (na nb : String) (label : String) (alo ahi blo bhi : ℚ) :
    List CoincidentBoundary :=
  (if |ahi - blo| < COINCIDENCE_TOLERANCE then
    [{ componentA := na, componentB := nb, axis := label, value := ahi }]
   else []) ++
  (if |alo - bhi| < COINCIDENCE_TOLERANCE then
    [{ componentA := na, componentB := nb, axis := label, value := alo }]
   else [])

/-- `BoundaryDetector._compare_pair`. -/
def comparePair (dict : List (String × LoadedMesh))
    (ca cb : ClassifiedComponent) : List CoincidentBoundary :=
  match dict.lookup ca.name, dict.lookup cb.name with
  | some ma, some mb =>
    match ma.boundingBox, mb.boundingBox with
    | some ab, some bb =>
      axisChecks ca.name cb.name "X" ab.1.1 ab.2.1 bb.1.1 bb.2.1 ++
      axisChecks ca.name cb.name "Y" ab.1.2.1 ab.2.2.1 bb.1.2.1 bb.2.2.1 ++
      axisChecks ca.name cb.name "Z" ab.1.2.2 ab.2.2.2 bb.1.2.2 bb.2.2.2
    | _, _ => compareZRanges ca cb
  | _, _ => []

/-- The ordered pairs `(components[i], components[j])` with `i < j`. -/
def orderedPairs {α : Type} : List α → List (α × α)
  | [] => []
  | x :: xs => xs.map (fun y => (x, y)) ++ orderedPairs xs

/-- `BoundaryDetector._detect`. -/
def boundaryDetectRaw (meshes : List LoadedMesh)
    (components : List ClassifiedComponent) : List CoincidentBoundary :=
  let dict := pyDictOf (meshes.map (fun m => (m.name, m)))
  (orderedPairs components).foldr
    (fun pr acc => comparePair dict pr.1 pr.2 ++ acc) []

/-- `BoundaryDetector.detect`: the public entry point of stage 6
(coordinates serialised rounded to 4 decimals). -/
def boundaryDetect (meshes : List LoadedMesh)
    (components : List ClassifiedComponent) : List CoincidentBoundary :=
  (boundaryDetectRaw meshes components).map
    (fun b => { b with value := pyRound 4 b.value })

/-! ### Real-valued helpers shared by stages 4, 5 and 7 -/

/-- `np.clip(x, lo, hi)`. -/
noncomputable def clipR (x lo hi : ℝ) : ℝ := max lo (min hi x)

/-- Radians to degrees. -/
noncomputable def degOf (x : ℝ) : ℝ := x * 180 / Real.pi

/-- `math.atan2 y x`. -/
noncomputable def atan2R (y x : ℝ) : ℝ :=
  if 0 < x then Real.arctan (y / x)
  else if x < 0 then
    (if 0 ≤ y then Real.arctan (y / x) + Real.pi
     else Real.arctan (y / x) - Real.pi)
  else if 0 < y then Real.pi / 2
  else if y < 0 then -(Real.pi / 2)
  else 0

/-- Python float `a % b` (sign of `b`). -/
noncomputable def rmod (a b : ℝ) : ℝ := a - b * ⌊a / b⌋

/-- Mean of a list of reals (`np.mean`). -/
noncomputable def meanR (l : List ℝ) : ℝ := l.sum / l.length

/-- Population standard deviation (`np.std`). -/
noncomputable def stdR (l : List ℝ) : ℝ :=
  Real.sqrt (meanR (l.map (fun x => (x - meanR l) ^ 2)))

/-- `np.median`: middle of the sorted list, or the mean of the two middles. -/
noncomputable def medianR (l : List ℝ) : ℝ :=
  let s := l.insertionSort (· ≤ ·)
  let n := s.length
  if n % 2 = 1 then s.getD (n / 2) 0
  else (s.getD (n / 2 - 1) 0 + s.getD (n / 2) 0) / 2

noncomputable def dot3 (a b : ℝ × ℝ × ℝ) : ℝ :=
  a.1 * b.1 + a.2.1 * b.2.1 + a.2.2 * b.2.2

noncomputable def norm3 (a : ℝ × ℝ × ℝ) : ℝ :=
  Real.sqrt (a.1 ^ 2 + a.2.1 ^ 2 + a.2.2 ^ 2)

def sub3 (a b : ℝ × ℝ × ℝ) : ℝ × ℝ × ℝ :=
  (a.1 - b.1, a.2.1 - b.2.1, a.2.2 - b.2.2)

/-! ### Stage 4: Feature detection (`feature_detect.py`) -/

noncomputable def CIRCLE_THRESHOLD : ℝ := 8/10
def MIN_FEATURE_AREA : ℚ := 4

/-- A value of the kind-specific parameter map of a feature. -/
inductive PVal where
  | num (x : ℝ)
  | str (s : String)
  | pts (l : List (ℝ × ℝ))

/-- A geometric feature detected in the cross-sections. -/
structure DetectedFeature where
  name : String
  featureType : String
  detectedFrom : String
  params : List (String × PVal) := []

/-- `f.params.get(key, 0)` for the numeric parameters the source reads
(the keys it reads always hold numbers when present). -/
noncomputable def pget (f : DetectedFeature) (key : String) : ℝ :=
  match f.params.lookup key with
  | some (.num x) => x
  | _ => 0

abbrev Path2 := List (ℚ × ℚ)

/-- `FeatureDetector._polygon_area`: absolute shoelace area. -/
def shoelace (path : Path2) : ℚ :=
  let n := path.length
  (1/2) * |((List.range n).map (fun i =>
    let p := path.getD i (0, 0)
    let q := path.getD ((i + 1) % n) (0, 0)
    p.1 * q.2 - q.1 * p.2)).sum|

/-- The perimeter term of `_compute_circularity`: the summed lengths of the
consecutive segments of the path (`np.diff` — no closing segment). -/
noncomputable def perimeterR (path : Path2) : ℝ :=
  ((path.zip path.tail).map (fun pq =>
    Real.sqrt (((pq.2.1 - pq.1.1 : ℚ) : ℝ) ^ 2 +
      ((pq.2.2 - pq.1.2 : ℚ) : ℝ) ^ 2))).sum

/-- `FeatureDetector._compute_circularity`. -/
noncomputable def circularity (path : Path2) (area : ℚ) : ℝ :=
  let per := perimeterR path
  if per ≤ 0 then 0
  else min 1 (4 * Real.pi * (area : ℝ) / per ^ 2)

/-- Squared distance between two rational plane points. -/
def sqDistPt (p q : ℚ × ℚ) : ℚ := (p.1 - q.1) ^ 2 + (p.2 - q.2) ^ 2

/-- Squared distance from `p` to the line through `a` and `b` (distance to
the point itself when `a = b`). -/
def sqDistLine (a b p : ℚ × ℚ) : ℚ :=
  let len := sqDistPt a b
  if len = 0 then sqDistPt a p
  else ((b.1 - a.1) * (p.2 - a.2) - (b.2 - a.2) * (p.1 - a.1)) ^ 2 / len

/-- Index of the first maximum of a list of rationals, tail-recursive part. -/
def idxMaxAux : List ℚ → ℚ → ℕ → ℕ → ℕ
  | [], _, _, best => best
  | x :: xs, cur, i, best =>
    if cur < x then idxMaxAux xs x (i + 1) i else idxMaxAux xs cur (i + 1) best

/-- Index of the first maximum of a list of rationals. -/
def idxMax : List ℚ → ℕ
  | [] => 0
  | x :: xs => idxMaxAux xs x 1 0

/-- Modelled from the spec: the source delegates polygon simplification to
the external `shapely` library (absent from `src/`), which the spec
describes as "Ramer–Douglas–Peucker-style" simplification at the given
tolerance.  Recursive Douglas–Peucker kernel on `a :: mid ++ [b]`,
returning the kept points from `a` up to but excluding `b`; distances are
compared through their squares, which is exact over the rationals. -/
def rdpAux (tolSq : ℚ) (a : ℚ × ℚ) (mid : List (ℚ × ℚ)) (b : ℚ × ℚ) :
    List (ℚ × ℚ) :=
  match hm : mid with
  | [] => [a]
  | c :: cs =>
    if tolSq < (mid.map (sqDistLine a b)).getD (idxMax (mid.map (sqDistLine a b))) 0 then
      rdpAux tolSq a (mid.take (idxMax (mid.map (sqDistLine a b))))
        (mid.getD (idxMax (mid.map (sqDistLine a b))) (0, 0)) ++
      rdpAux tolSq (mid.getD (idxMax (mid.map (sqDistLine a b))) (0, 0))
        (mid.drop (idxMax (mid.map (sqDistLine a b)) + 1)) b
    else [a]
termination_by mid.length
decreasing_by
  all_goals
    have key : ∀ (xs : List ℚ) (cur : ℚ) (i best : ℕ), best < i →
        idxMaxAux xs cur i best < i + xs.length := by
      intro xs
      induction xs with
      | nil => intro cur i best h; simpa [idxMaxAux] using h
      | cons x xs ih =>
        intro cur i best h
        simp only [idxMaxAux, List.length_cons]
        split
        · have := ih x (i + 1) i (Nat.lt_succ_self i); omega
        · have := ih cur (i + 1) best (Nat.lt_succ_of_lt h); omega
    have hk : idxMax (mid.map (sqDistLine a b)) < mid.length := by
      rw [hm, List.map_cons]
      have h2 := key (List.map (sqDistLine a b) cs) (sqDistLine a b c) 1 0 Nat.one_pos
      simp only [idxMax, List.length_cons, List.length_map]
      simp only [List.length_map] at h2
      omega
    rw [hm]
    rw [hm] at hk
    simp only [List.length_take, List.length_drop, List.length_cons]
    simp only [List.length_cons] at hk
    omega

/-- Modelled from the spec: Douglas–Peucker simplification of a full point
sequence keeping both endpoints. -/
def rdp (tol : ℚ) : Path2 → Path2
  | [] => []
  | [p] => [p]
  | p :: q :: rest =>
    let all := q :: rest
    let last := all.getLastD q
    rdpAux (tol ^ 2) p all.dropLast last ++ [last]

/-- Modelled from the spec: `FeatureDetector._simplify_polygon` via shapely
— the path is closed into a polygon ring, simplified, and the duplicate
closing vertex dropped. -/
def simplifyPolygon (tol : ℚ) (path : Path2) : Path2 :=
  match path with
  | [] => []
  | p :: _ =>
    let ring := if path.getLastD p = p then path else path ++ [p]
    (rdp tol ring).dropLast

/-- `FeatureDetector._is_rectangular`: the simplified path has exactly 4
corners whose consecutive edge pairs are near-perpendicular. -/
noncomputable def isRectangular (path : Path2) : Prop :=
  let s := simplifyPolygon 1 path
  s.length = 4 ∧ ∀ i < 4,
    let p₀ := s.getD (i % 4) (0, 0)
    let p₁ := s.getD ((i + 1) % 4) (0, 0)
    let p₂ := s.getD ((i + 2) % 4) (0, 0)
    let v₁ : ℝ × ℝ := (((p₁.1 - p₀.1 : ℚ) : ℝ), ((p₁.2 - p₀.2 : ℚ) : ℝ))
    let v₂ : ℝ × ℝ := (((p₂.1 - p₁.1 : ℚ) : ℝ), ((p₂.2 - p₁.2 : ℚ) : ℝ))
    let norms := Real.sqrt (v₁.1 ^ 2 + v₁.2 ^ 2) * Real.sqrt (v₂.1 ^ 2 + v₂.2 ^ 2)
    norms ≠ 0 ∧ |(v₁.1 * v₂.1 + v₁.2 * v₂.2) / norms| ≤ 15/100

/-- Fixed-point formatting with one decimal, Python `f"{q:.1f}"`. -/
def fmt1 (q : ℚ) : String :=
  let k := roundEvenQ (q * 10)
  (if k < 0 then "-" else "") ++ toString (k.natAbs / 10) ++ "." ++
    toString (k.natAbs % 10)

def listMinQ (l : List ℚ) : ℚ := l.foldl min (l.headD 0)
def listMaxQ (l : List ℚ) : ℚ := l.foldl max (l.headD 0)

/-- `FeatureDetector._classify_path`: classify one closed 2-D path as a
circular hole, rectangular slot or generic polygon. -/
noncomputable def classifyPath (z : ℚ) (sourceName : String) (path : Path2) :
    Option DetectedFeature :=
  if path.length < 3 then none
  else
    let area := shoelace path
    if area < MIN_FEATURE_AREA then none
    else if CIRCLE_THRESHOLD ≤ circularity path area then
      let cx := (path.map (·.1)).sum / path.length
      let cy := (path.map (·.2)).sum / path.length
      some { name := "", featureType := "circular_hole",
             detectedFrom := "cross_section_z" ++ fmt1 z ++ "_" ++ sourceName,
             params := [("center_x", .num ((round3 cx : ℚ) : ℝ)),
                        ("center_y", .num ((round3 cy : ℚ) : ℝ)),
                        ("diameter", .num (rpyRound 3
                          (2 * Real.sqrt ((area : ℝ) / Real.pi)))),
                        ("z_level", .num ((round3 z : ℚ) : ℝ))] }
    else if isRectangular path then
      let xMin := listMinQ (path.map (·.1))
      let xMax := listMaxQ (path.map (·.1))
      let yMin := listMinQ (path.map (·.2))
      let yMax := listMaxQ (path.map (·.2))
      some { name := "", featureType := "rectangular_slot",
             detectedFrom := "cross_section_z" ++ fmt1 z ++ "_" ++ sourceName,
             params := [("x_min", .num ((round3 xMin : ℚ) : ℝ)),
                        ("x_max", .num ((round3 xMax : ℚ) : ℝ)),
                        ("y_min", .num ((round3 yMin : ℚ) : ℝ)),
                        ("y_max", .num ((round3 yMax : ℚ) : ℝ)),
                        ("width", .num ((round3 (xMax - xMin) : ℚ) : ℝ)),
                        ("height", .num ((round3 (yMax - yMin) : ℚ) : ℝ)),
                        ("z_level", .num ((round3 z : ℚ) : ℝ))] }
    else
      let simplified := simplifyPolygon (1/2) path
      if 3 ≤ simplified.length then
        some { name := "", featureType := "polygon",
               detectedFrom := "cross_section_z" ++ fmt1 z ++ "_" ++ sourceName,
               params := [("vertices", .pts (simplified.map (fun v =>
                            (((round3 v.1 : ℚ) : ℝ), ((round3 v.2 : ℚ) : ℝ))))),
                          ("vertex_count", .num (simplified.length : ℝ)),
                          ("z_level", .num ((round3 z : ℚ) : ℝ)),
                          ("area", .num ((round3 area : ℚ) : ℝ))] }
      else none

/-- The section height probed by `_analyse_cross_section`. -/
def zMidOf (m : LoadedMesh) (z : ℚ) : ℚ :=
  let z₀ := z + 1/10
  if m.zMax < z₀ then max (m.zMin + 1/100) (z - 1/10) else z₀

/-- `FeatureDetector._analyse_cross_section`: classify every discrete path
of the section, any exception yielding zero features from this level. -/
noncomputable def analyseCrossSection (m : LoadedMesh) (z : ℚ) :
    List DetectedFeature :=
  match m.sectionAt (zMidOf m z) with
  | .error _ => []
  | .ok none => []
  | .ok (some paths) =>
    paths.filterMap (fun path =>
      if path.length < 4 then none
      else classifyPath (zMidOf m z) m.name path)

/-- `FeatureDetector._features_from_variant_diffs`. -/
noncomputable def featuresFromVariantDiffs (vd : VariantDiffOut) :
    List DetectedFeature :=
  vd.pairs.filterMap (fun p =>
    if (p.relationship = "subtracted" ∨ p.relationship = "holes_removed") ∧
        0 < |p.volumeDiff| then
      some { name := "",
             featureType := if p.relationship = "holes_removed" then
               "circular_hole" else "polygon",
             detectedFrom := "variant_diff:" ++ p.base ++ "→" ++ p.variant,
             params := [("volume_diff", .num ((round3 |p.volumeDiff| : ℚ) : ℝ)),
                        ("relationship", .str p.relationship)] }
    else none)

/-- `_estimate_fillet_radius`: median of `len/(2·sin(angle/2))` over the
first 20 smooth edges. -/
noncomputable def estimateFilletRadius (ed : EdgeData) (idxs : List ℕ) : ℝ :=
  let radii := (idxs.take 20).filterMap (fun i =>
    match ed.normalPairs.getD i ((0, 0, 0), (0, 0, 0)) with
    | (n0, n1) =>
      let angle := Real.arccos |clipR (dot3 n0 n1) (-1) 1|
      if 1/1000000 < angle then
        if h : i < ed.edgeVerts.length then
          let ev := ed.edgeVerts.get ⟨i, h⟩
          let len := norm3 (sub3 ev.1 ev.2)
          if 0 < len then some (len / (2 * Real.sin (angle / 2))) else none
        else none
      else none)
  if radii.isEmpty then 1 else medianR radii

/-- `_estimate_chamfer_size`: median edge length over the first 20 chamfer
edges. -/
noncomputable def estimateChamferSize (ed : EdgeData) (idxs : List ℕ) : ℝ :=
  let lengths := (idxs.take 20).filterMap (fun i =>
    if h : i < ed.edgeVerts.length then
      some (norm3 (sub3 (ed.edgeVerts.get ⟨i, h⟩).1 (ed.edgeVerts.get ⟨i, h⟩).2))
    else none)
  if lengths.isEmpty then 1 else medianR lengths

/-- `FeatureDetector._detect_fillets_chamfers`: bucket edges by dihedral
angle and emit at most one fillet and one chamfer summary; a missing
`face_adjacency` attribute or any exception yields no features. -/
noncomputable def detectFilletsChamfers (m : LoadedMesh) :
    List DetectedFeature :=
  match m.edgeData with
  | none => []
  | some (.error _) => []
  | some (.ok ed) =>
    let angles := ed.normalPairs.map (fun nn =>
      degOf (Real.arccos |clipR (dot3 nn.1 nn.2) (-1) 1|))
    let chamferEdges := (angles.enum.filter
      (fun ia => 10 ≤ ia.2 ∧ ia.2 ≤ 80)).map (·.1)
    let filletEdges := (angles.enum.filter
      (fun ia => ¬ (10 ≤ ia.2 ∧ ia.2 ≤ 80) ∧ ia.2 < 10)).map (·.1)
    (if filletEdges.isEmpty then [] else
      [{ name := "", featureType := "fillet",
         detectedFrom := "edge_dihedral_" ++ m.name,
         params := [("radius", .num (rpyRound 3 (estimateFilletRadius ed filletEdges))),
                    ("edge_count", .num (filletEdges.length : ℝ))] }]) ++
    (if chamferEdges.isEmpty then [] else
      [{ name := "", featureType := "chamfer",
         detectedFrom := "edge_dihedral_" ++ m.name,
         params := [("size", .num (rpyRound 3 (estimateChamferSize ed chamferEdges))),
                    ("edge_count", .num (chamferEdges.length : ℝ))] }])

/-- One B-rep face metadata record (Phase 3D), absent fields read as 0. -/
structure BrepFace where
  faceType : String := ""
  radius : ℝ := 0
  area : ℝ := 0
  centerX : ℝ := 0
  centerY : ℝ := 0
  zMin : ℝ := 0

/-- `FeatureDetector._features_from_brep`. -/
noncomputable def featuresFromBrep (metadata : List BrepFace) :
    List DetectedFeature :=
  metadata.filterMap (fun face =>
    if face.faceType = "cylindrical" ∧ 0 < face.radius ∧
        (MIN_FEATURE_AREA : ℝ) ≤ face.area then
      some { name := "", featureType := "circular_hole",
             detectedFrom := "brep_face",
             params := [("diameter", .num (rpyRound 3 (face.radius * 2))),
                        ("center_x", .num (rpyRound 3 face.centerX)),
                        ("center_y", .num (rpyRound 3 face.centerY)),
                        ("z_level", .num (rpyRound 3 face.zMin))] }
    else if face.faceType = "toroidal" ∧ 0 < face.radius then
      some { name := "", featureType := "fillet",
             detectedFrom := "brep_face",
             params := [("radius", .num (rpyRound 3 face.radius)),
                        ("edge_count", .num 1)] }
    else none)

/-- The duplicate test of `FeatureDetector._deduplicate` between a kept
feature `s` and a later feature `f`. -/
noncomputable def isDupMatch (s f : DetectedFeature) : Prop :=
  s.featureType = f.featureType ∧
  ((f.featureType = "circular_hole" ∧
      Real.sqrt ((pget f "center_x" - pget s "center_x") ^ 2 +
        (pget f "center_y" - pget s "center_y") ^ 2) < 1) ∨
   (f.featureType = "rectangular_slot" ∧
      |pget f "x_min" - pget s "x_min"| < 1 ∧
      |pget f "y_min" - pget s "y_min"| < 1) ∨
   ((f.featureType = "fillet" ∨ f.featureType = "chamfer") ∧
      s.detectedFrom = f.detectedFrom))

/-- The accumulator loop of `FeatureDetector._deduplicate`. -/
noncomputable def dedupAux (seen : List DetectedFeature) :
    List DetectedFeature → List DetectedFeature
  | [] => seen
  | f :: fs =>
    if ∃ s ∈ seen, isDupMatch s f then dedupAux seen fs
    else dedupAux (seen ++ [f]) fs

/-- `FeatureDetector._deduplicate`: drop features that duplicate an
earlier-kept feature of the same kind. -/
noncomputable def deduplicate (features : List DetectedFeature) :
    List DetectedFeature :=
  dedupAux [] features

/-- The body-mesh choice of `FeatureDetector.detect`: the Z-profile body
candidate when present in the dict, else the largest-volume mesh. -/
def chooseBodyMesh (dict : List (String × LoadedMesh))
    (zp : ZProfileResult) : Option LoadedMesh :=
  match (match zp.bodyCandidate with
         | some bc => dict.lookup bc
         | none => none) with
  | some m => some m
  | none =>
    match dict with
    | [] => none
    | d :: ds => some (foldMaxBy (fun m => m.volume) d.2 (ds.map (·.2)))

/-- `FeatureDetector.detect`: the public entry point of stage 4. -/
noncomputable def featureDetect (meshes : List LoadedMesh)
    (zp : ZProfileResult) (vd : VariantDiffOut) (brep : List BrepFace) :
    List DetectedFeature :=
  let dict := pyDictOf ((nonDxf meshes).map (fun m => (m.name, m)))
  match chooseBodyMesh dict zp with
  | none => []
  | some bm =>
    let crossFeats := zp.allLevels.foldr
      (fun z acc => analyseCrossSection bm z ++ acc) []
    let all := crossFeats ++ featuresFromVariantDiffs vd ++
      detectFilletsChamfers bm ++
      (if brep.isEmpty then [] else featuresFromBrep brep)
    (deduplicate all).enum.map (fun ifl =>
      if ifl.2.name = "" then
        { ifl.2 with name := ifl.2.featureType ++ "_" ++ toString (ifl.1 + 1) }
      else ifl.2)

/-! ### Stage 7: Symmetry detection (`symmetry_detect.py`) -/

structure SymmetryResult where
  mirrorXZ : Bool := false
  mirrorYZ : Bool := false
  mirrorXY : Bool := false
  rotationalN : ℕ := 0
  rotationalScore : ℝ := 0

def SYMMETRY_TOL : ℚ := 1/20
noncomputable def ROT_SCORE_THRESH : ℝ := 3/4

/-- The chosen coordinate of a vertex. -/
def comp3 (axis : ℕ) (v : Vec3) : ℚ :=
  if axis = 0 then v.1 else if axis = 1 then v.2.1 else v.2.2

/-- `_test_mirror_symmetry`: compare the sorted coordinate distribution
along `axis` against its negation; more than 80 % of positions must agree
within 5 % of that axis's extent. -/
def testMirrorSymmetry (centred : List Vec3) (axis : ℕ) (extents : Vec3) :
    Bool :=
  let tol := comp3 axis extents * SYMMETRY_TOL
  if tol < 1/1000000 then false
  else
    let coords := centred.map (comp3 axis)
    let sortedOrig := coords.insertionSort (· ≤ ·)
    let sortedMirror := (coords.map (fun x => -x)).insertionSort (· ≤ ·)
    let diffs := (sortedOrig.zip sortedMirror).map (fun ab => |ab.1 - ab.2|)
    decide ((4 : ℚ)/5 < ((diffs.filter (fun d => d < tol)).length : ℚ) / diffs.length)

/-- `_test_rotational_symmetry`: best N-fold rotational symmetry around Z
among N ∈ {2, 3, 4, 6, 8}, scored by 1 minus the mean radius coefficient of
variation over the N angular sectors. -/
noncomputable def testRotationalSymmetry (centred : List Vec3) : ℕ × ℝ :=
  let radii := centred.map (fun v =>
    Real.sqrt (((v.1 : ℚ) : ℝ) ^ 2 + ((v.2.1 : ℚ) : ℝ) ^ 2))
  let angles := centred.map (fun v =>
    rmod (degOf (atan2R ((v.2.1 : ℚ) : ℝ) ((v.1 : ℚ) : ℝ))) 360)
  let scoreOf : ℕ → Option ℝ := fun n =>
    let step : ℝ := 360 / n
    let sectorRadii := (List.range n).map (fun k =>
      let selected := ((angles.zip radii).filterMap (fun ar =>
        if rmod (ar.1 - k * step) 360 < step then some ar.2 else none))
      if selected.isEmpty then [0] else selected)
    let cvList := sectorRadii.filterMap (fun sr =>
      if 1/1000000 < meanR sr then some (stdR sr / meanR sr) else none)
    if cvList.isEmpty then none else some (max 0 (1 - meanR cvList))
  let best := [2, 3, 4, 6, 8].foldl (fun (acc : ℕ × ℝ) n =>
    match scoreOf n with
    | none => acc
    | some score => if acc.2 < score then (n, score) else acc) (0, 0)
  if best.2 < ROT_SCORE_THRESH then (0, best.2) else best

/-- `SymmetryDetector._analyse_mesh`: meshes with fewer than 8 vertices
keep the default result; a failing `bounds` access is caught and also
yields the default. -/
noncomputable def analyseMesh (verts : List Vec3)
    (boundsData : Except Unit (Vec3 × Vec3)) : SymmetryResult :=
  if verts.length < 8 then {}
  else
    match boundsData with
    | .error _ => {}
    | .ok bounds =>
      let n : ℚ := verts.length
      let centroid : Vec3 := ((verts.map (·.1)).sum / n,
        (verts.map (·.2.1)).sum / n, (verts.map (·.2.2)).sum / n)
      let centred := verts.map (fun v =>
        (v.1 - centroid.1, v.2.1 - centroid.2.1, v.2.2 - centroid.2.2))
      let extents : Vec3 := (bounds.2.1 - bounds.1.1,
        bounds.2.2.1 - bounds.1.2.1, bounds.2.2.2 - bounds.1.2.2)
      let rot := testRotationalSymmetry centred
      { mirrorYZ := testMirrorSymmetry centred 0 extents,
        mirrorXZ := testMirrorSymmetry centred 1 extents,
        mirrorXY := testMirrorSymmetry centred 2 extents,
        rotationalN := rot.1, rotationalScore := rot.2 }

/-- The per-mesh step of `SymmetryDetector.detect`: meshes without a
`vertices` attribute are skipped, a raising access is caught into the
default result. -/
noncomputable def symOne (m : LoadedMesh) : Option (String × SymmetryResult) :=
  match m.vertexData with
  | none => none
  | some (.error _) => some (m.name, {})
  | some (.ok verts) => some (m.name, analyseMesh verts m.boundsData)

/-- `SymmetryDetector.detect`: the public entry point of stage 7. -/
noncomputable def symDetect (meshes : List LoadedMesh) :
    List (String × SymmetryResult) :=
  pyDictOf (meshes.filterMap symOne)

/-! ### Stage 5: Pattern detection (`pattern_detect.py`) -/

structure DetectedPattern where
  patternType : String
  featureType : String
  count : ℕ
  spacing : Option ℝ := none
  direction : Option (ℝ × ℝ) := none
  start : Option (ℝ × ℝ) := none
  radius : Option ℝ := none
  angularSpacingDeg : Option ℝ := none
  arcCenter : Option (ℝ × ℝ) := none
  memberNames : List String := []

/-- `_feature_size_key`. -/
noncomputable def featureSizeKey (f : DetectedFeature) : String × List ℝ :=
  if f.featureType = "circular_hole" then
    (f.featureType, [rpyRound 1 (pget f "diameter")])
  else if f.featureType = "rectangular_slot" ∨ f.featureType = "notch" then
    (f.featureType, [rpyRound 1 (pget f "width"), rpyRound 1 (pget f "height")])
  else (f.featureType, [])

/-- `dict.setdefault`-based grouping preserving first-appearance key order. -/
noncomputable def addToGroups (gs : List ((String × List ℝ) × List DetectedFeature))
    (k : String × List ℝ) (f : DetectedFeature) :
    List ((String × List ℝ) × List DetectedFeature) :=
  if ∃ g ∈ gs, g.1 = k then
    gs.map (fun g => if g.1 = k then (k, g.2 ++ [f]) else g)
  else gs ++ [(k, [f])]

/-- `PatternDetector._group_by_type_and_size`. -/
noncomputable def groupByTypeAndSize (features : List DetectedFeature) :
    List ((String × List ℝ) × List DetectedFeature) :=
  features.foldl (fun gs f => addToGroups gs (featureSizeKey f) f) []

/-- `_extract_centres`. -/
noncomputable def extractCentres (fs : List DetectedFeature) :
    List (ℝ × ℝ) :=
  fs.filterMap (fun f =>
    match f.params.lookup "center_x", f.params.lookup "center_y" with
    | some (.num x), some (.num y) => some (x, y)
    | _, _ =>
      match f.params.lookup "x_min", f.params.lookup "x_max",
        f.params.lookup "y_min", f.params.lookup "y_max" with
      | some (.num x0), some (.num x1), some (.num y0), some (.num y1) =>
        some ((x0 + x1) / 2, (y0 + y1) / 2)
      | _, _, _, _ => none)

noncomputable def norm2R (v : ℝ × ℝ) : ℝ := Real.sqrt (v.1 ^ 2 + v.2 ^ 2)

/-- `PatternDetector._test_linear`. -/
noncomputable def testLinear (centres : List (ℝ × ℝ)) :
    Option (ℝ × (ℝ × ℝ) × (ℝ × ℝ)) :=
  if centres.length < 3 then none
  else
    let pts := centres.insertionSort
      (fun p q => p.1 < q.1 ∨ (p.1 = q.1 ∧ p.2 ≤ q.2))
    match pts with
    | [] => none
    | p₀ :: _ =>
      let pn := pts.getLastD p₀
      let v : ℝ × ℝ := (pn.1 - p₀.1, pn.2 - p₀.2)
      let total := norm2R v
      if total < 1/1000000 then none
      else
        let dir : ℝ × ℝ := (v.1 / total, v.2 / total)
        let expected := total / ((pts.length : ℝ) - 1)
        if ∀ pq ∈ pts.zip pts.tail,
            let delta : ℝ × ℝ := (pq.2.1 - pq.1.1, pq.2.2 - pq.1.2)
            let along := delta.1 * dir.1 + delta.2 * dir.2
            let perp := norm2R (delta.1 - along * dir.1, delta.2 - along * dir.2)
            perp ≤ 1/2 ∧ |along - expected| ≤ 1/2 then
          some (expected, dir, p₀)
        else none

/-- `_circumcircle`. -/
noncomputable def circumcircle (a b c : ℝ × ℝ) : ℝ × ℝ × Option ℝ :=
  let d := 2 * (a.1 * (b.2 - c.2) + b.1 * (c.2 - a.2) + c.1 * (a.2 - b.2))
  if |d| < 1/10000000000 then (0, 0, none)
  else
    let ux := ((a.1 ^ 2 + a.2 ^ 2) * (b.2 - c.2) + (b.1 ^ 2 + b.2 ^ 2) * (c.2 - a.2)
      + (c.1 ^ 2 + c.2 ^ 2) * (a.2 - b.2)) / d
    let uy := ((a.1 ^ 2 + a.2 ^ 2) * (c.1 - b.1) + (b.1 ^ 2 + b.2 ^ 2) * (a.1 - c.1)
      + (c.1 ^ 2 + c.2 ^ 2) * (b.1 - a.1)) / d
    (ux, uy, some (Real.sqrt ((a.1 - ux) ^ 2 + (a.2 - uy) ^ 2)))

/-- `PatternDetector._test_circular`. -/
noncomputable def testCircular (centres : List (ℝ × ℝ)) :
    Option (ℝ × ℝ × ℝ × ℝ) :=
  match centres with
  | a :: b :: c :: _ =>
    match circumcircle a b c with
    | (cx, cy, some r) =>
      if r < 1/1000 then none
      else if ∀ p ∈ centres,
          |Real.sqrt ((p.1 - cx) ^ 2 + (p.2 - cy) ^ 2) - r| ≤ 1/2 then
        let angles := (centres.map (fun p =>
          rmod (degOf (atan2R (p.2 - cy) (p.1 - cx))) 360)).insertionSort (· ≤ ·)
        let spacings := ((angles.zip angles.tail).map
          (fun xy => rmod (xy.2 - xy.1) 360)) ++
          [rmod (360 - angles.getLastD 0 + angles.headD 0) 360]
        let ms := meanR spacings
        if ((spacings.map (fun s => |s - ms|)).foldr max 0) ≤ 1 then
          some (cx, cy, r, ms)
        else none
      else none
    | (_, _, none) => none
  | _ => none

/-- `PatternDetector.detect`: the public entry point of stage 5. -/
noncomputable def patternDetect (features : List DetectedFeature) :
    List DetectedPattern :=
  (groupByTypeAndSize features).foldr (fun kg acc =>
    (if kg.2.length < 3 then []
     else
      let centres := extractCentres kg.2
      if centres.length < 3 then []
      else
        match testLinear centres with
        | some sds =>
          [{ patternType := "linear", featureType := kg.1.1,
             count := kg.2.length,
             spacing := some (rpyRound 3 sds.1),
             direction := some (rpyRound 4 sds.2.1.1, rpyRound 4 sds.2.1.2),
             start := some (rpyRound 3 sds.2.2.1, rpyRound 3 sds.2.2.2),
             memberNames := kg.2.map (·.name) }]
        | none =>
          match testCircular centres with
          | some cr =>
            [{ patternType := "circular", featureType := kg.1.1,
               count := kg.2.length,
               radius := some (rpyRound 3 cr.2.2.1),
               angularSpacingDeg := some (rpyRound 2 cr.2.2.2),
               arcCenter := some (rpyRound 3 cr.1, rpyRound 3 cr.2.1),
               memberNames := kg.2.map (·.name) }]
          | none => []) ++ acc) []

/-! ### Concrete fixtures for witnesses and counterexamples -/

/-- A section probe that always reports an empty section. -/
def emptySection : ℚ → Except Unit (Option (List (List (ℚ × ℚ)))) :=
  fun _ => .ok none

/-- A mesh record without vertex data (degenerate geometry). -/
def noVertexMesh : LoadedMesh :=
  { name := "slab", path := "slab.obj", fileType := "obj", autoRole := "",
    zMin := 0, zMax := 8, volume := 100, boundingBox := none,
    vertexData := none, sectionAt := emptySection, edgeData := none,
    boundsData := .error () }

/-- A mesh whose geometry accesses all raise. -/
def errVertexMesh : LoadedMesh :=
  { name := "broken", path := "broken.stl", fileType := "stl", autoRole := "",
    zMin := 0, zMax := 4, volume := 10, boundingBox := none,
    vertexData := some (.error ()), sectionAt := fun _ => .error (),
    edgeData := some (.error ()), boundsData := .error () }

/-- A mesh whose vertex set is exactly a perfect square centred at the
origin (4 vertices). -/
def squareMesh : LoadedMesh :=
  { name := "square", path := "square.stl", fileType := "stl", autoRole := "",
    zMin := 0, zMax := 0, volume := 0, boundingBox := none,
    vertexData := some (.ok [(10, 10, 0), (10, -10, 0), (-10, -10, 0), (-10, 10, 0)]),
    sectionAt := emptySection, edgeData := none,
    boundsData := .ok ((-10, -10, 0), (10, 10, 0)) }

/-- The body mesh of the topology fixtures, Z-range [0, 8]. -/
def bodyMesh : LoadedMesh :=
  { name := "body", path := "body.stl", fileType := "stl", autoRole := "",
    zMin := 0, zMax := 8, volume := 800,
    boundingBox := some ((0, 0, 0), (10, 10, 8)),
    vertexData := none, sectionAt := emptySection, edgeData := none,
    boundsData := .error () }

/-- A second component with the same Z-range [0, 8] as the body and no
filename role hint. -/
def twinMesh : LoadedMesh :=
  { name := "twin", path := "twin.stl", fileType := "stl", autoRole := "",
    zMin := 0, zMax := 8, volume := 700,
    boundingBox := some ((0, 0, 0), (10, 10, 8)),
    vertexData := none, sectionAt := emptySection, edgeData := none,
    boundsData := .error () }

/-- Z-profile data with body range [0, 8] and body candidate `"body"`. -/
def zpBody : ZProfileResult :=
  { profiles :=
      [("body", { meshName := "body", zMin := 0, zMax := 8, zThickness := 8 }),
       ("twin", { meshName := "twin", zMin := 0, zMax := 8, zThickness := 8 })],
    allLevels := [0, 8], bodyZMin := 0, bodyZMax := 8,
    bodyCandidate := some "body" }

/-- Lower component of the boundary fixture: Z-max 8. -/
def lowerMesh : LoadedMesh :=
  { name := "lower", path := "lower.stl", fileType := "stl", autoRole := "",
    zMin := 0, zMax := 8, volume := 800,
    boundingBox := some ((0, 0, 0), (10, 10, 8)),
    vertexData := none, sectionAt := emptySection, edgeData := none,
    boundsData := .error () }

/-- Upper component of the boundary fixture: Z-min 8, all other endpoint
pairs far apart. -/
def upperMesh : LoadedMesh :=
  { name := "upper", path := "upper.stl", fileType := "stl", autoRole := "",
    zMin := 8, zMax := 16, volume := 400,
    boundingBox := some ((20, 20, 8), (30, 30, 16)),
    vertexData := none, sectionAt := emptySection, edgeData := none,
    boundsData := .error () }

def lowerComp : ClassifiedComponent :=
  { name := "lower", role := "base_solid", zMin := 0, zMax := 8,
    sourceFile := "lower.stl" }

def upperComp : ClassifiedComponent :=
  { name := "upper", role := "additive", zMin := 8, zMax := 16,
    sourceFile := "upper.stl" }

/-- A fillet summary feature as `_detect_fillets_chamfers` emits it. -/
noncomputable def filletFeat : DetectedFeature :=
  { name := "", featureType := "fillet", detectedFrom := "edge_dihedral_body",
    params := [("radius", .num 2), ("edge_count", .num 5)] }

/-- A chamfer summary feature from the same mesh (same provenance). -/
noncomputable def chamferFeat : DetectedFeature :=
  { name := "", featureType := "chamfer", detectedFrom := "edge_dihedral_body",
    params := [("size", .num 1), ("edge_count", .num 3)] }

/-- The 4 vertices (±10, 0), (±10, 30) as an open path. -/
def openSquarePath : Path2 := [(-10, 0), (10, 0), (10, 30), (-10, 30)]

/-- The same cross-section as a closed path (first vertex repeated). -/
def closedSquarePath : Path2 := [(-10, 0), (10, 0), (10, 30), (-10, 30), (-10, 0)]

/-! ## Theorems

### Rounding and clustering lemmas (stage 1 invariants) -/

theorem roundEvenQ_close (x : ℚ) : |(roundEvenQ x : ℚ) - x| ≤ 1/2 := by
  simp only [roundEvenQ]
  have h0 : (0 : ℚ) ≤ x - ⌊x⌋ := by
    have := Int.floor_le x; linarith
  have h1 : x - ⌊x⌋ < 1 := by
    have := Int.lt_floor_add_one x; linarith
  split_ifs with hlt hgt hev
  · rw [abs_le]; constructor <;> linarith
  · push_cast; rw [abs_le]; constructor <;> linarith
  · rw [abs_le]; constructor <;> linarith
  · push_cast; rw [abs_le]; constructor <;> linarith

theorem round3_mult (x : ℚ) : Mult1000 (round3 x) :=
  ⟨roundEvenQ (x * 10 ^ 3), by norm_num [round3, pyRound]⟩

theorem round3_close (x : ℚ) : |round3 x - x| ≤ 1/2000 := by
  have h := roundEvenQ_close (x * 10 ^ 3)
  rw [round3, pyRound]
  rw [abs_le] at h ⊢
  norm_num at h ⊢
  constructor <;> linarith

theorem mult_gap {a b : ℚ} (ha : Mult1000 a) (hb : Mult1000 b)
    (h : a + 199/2000 < b) : a + 1/10 ≤ b := by
  obtain ⟨j, rfl⟩ := ha
  obtain ⟨k, rfl⟩ := hb
  have hjk : 2 * j + 199 < 2 * k := by
    have h2 := mul_lt_mul_of_pos_left h (by norm_num : (0 : ℚ) < 2000)
    have h3 : (2 * j + 199 : ℚ) < 2 * k := by ring_nf at h2 ⊢; linarith
    exact_mod_cast h3
  have hk : j + 100 ≤ k := by omega
  have : (j : ℚ) + 100 ≤ k := by exact_mod_cast hk
  linarith

theorem mem_clusterAux {f : ℚ → ℚ} {y : ℚ} {xs : List ℚ} :
    ∀ {last : ℚ}, y ∈ clusterAux f last xs → ∃ x ∈ xs, y = f x := by
  induction xs with
  | nil => intro last h; simp [clusterAux] at h
  | cons x xs ih =>
    intro last h
    simp only [clusterAux] at h
    split_ifs at h with hc
    · rcases List.mem_cons.mp h with h1 | h2
      · exact ⟨x, List.mem_cons_self x xs, h1⟩
      · obtain ⟨x', hx', rfl⟩ := ih h2
        exact ⟨x', List.mem_cons_of_mem _ hx', rfl⟩
    · obtain ⟨x', hx', rfl⟩ := ih h
      exact ⟨x', List.mem_cons_of_mem _ hx', rfl⟩

theorem mem_clusterPass {f : ℚ → ℚ} {y : ℚ} {xs : List ℚ}
    (hy : y ∈ clusterPass f xs) : ∃ x ∈ xs, y = f x := by
  cases xs with
  | nil => simp [clusterPass] at hy
  | cons x xs =>
    simp only [clusterPass] at hy
    rcases List.mem_cons.mp hy with h | h
    · exact ⟨x, List.mem_cons_self x xs, h⟩
    · obtain ⟨x', hx', rfl⟩ := mem_clusterAux h
      exact ⟨x', List.mem_cons_of_mem _ hx', rfl⟩

theorem clusterAux_chain (f : ℚ → ℚ) (xs : List ℚ) :
    ∀ last : ℚ,
      (∀ x ∈ xs, |f x - x| ≤ 1/2000 ∧ Mult1000 (f x)) →
      Mult1000 last →
      xs.Sorted (· ≤ ·) →
      (∀ x ∈ xs, last ≤ x + 1/2000) →
      List.Chain (fun a b => a + 1/10 ≤ b) last (clusterAux f last xs) := by
  induction xs with
  | nil => intro last _ _ _ _; simp [clusterAux]
  | cons x xs ih =>
    intro last hf hlast hsort hmem
    have hx := hmem x (List.mem_cons_self x xs)
    have hfx := hf x (List.mem_cons_self x xs)
    have hxle : ∀ x' ∈ xs, x ≤ x' := (List.sorted_cons.mp hsort).1
    have hfxb := abs_le.mp hfx.1
    simp only [clusterAux]
    split_ifs with h
    · have hgt : (1 : ℚ)/10 < x - last := by
        have hge : -(1/2000 : ℚ) ≤ x - last := by linarith
        rcases lt_abs.mp h with h1 | h1
        · exact h1
        · exfalso
          rw [Z_CLUSTER_TOLERANCE] at h1
          linarith
      refine List.Chain.cons ?_ (ih (f x)
        (fun x' h' => hf x' (List.mem_cons_of_mem _ h'))
        hfx.2 hsort.of_cons ?_)
      · exact mult_gap hlast hfx.2 (by linarith)
      · intro x' h'
        have := hxle x' h'
        linarith
    · refine ih last (fun x' h' => hf x' (List.mem_cons_of_mem _ h'))
        hlast hsort.of_cons ?_
      intro x' h'
      have := hxle x' h'
      linarith

theorem clusterPass_chain (f : ℚ → ℚ) (xs : List ℚ)
    (hf : ∀ x ∈ xs, |f x - x| ≤ 1/2000 ∧ Mult1000 (f x))
    (hsort : xs.Sorted (· ≤ ·)) :
    List.Chain' (fun a b => a + 1/10 ≤ b) (clusterPass f xs) := by
  cases xs with
  | nil => simp [clusterPass]
  | cons x xs =>
    have hfx := hf x (List.mem_cons_self x xs)
    have hfxb := abs_le.mp hfx.1
    show List.Chain _ (f x) (clusterAux f (f x) xs)
    refine clusterAux_chain f xs (f x)
      (fun x' h' => hf x' (List.mem_cons_of_mem _ h'))
      hfx.2 hsort.of_cons ?_
    intro x' h'
    have := (List.sorted_cons.mp hsort).1 x' h'
    linarith

theorem pySortedSet_sorted (xs : List ℚ) :
    (pySortedSet xs).Sorted (· ≤ ·) :=
  List.sorted_insertionSort _ _

theorem mem_pySortedSet {y : ℚ} {xs : List ℚ} (h : y ∈ pySortedSet xs) :
    y ∈ xs :=
  List.mem_dedup.mp ((List.perm_insertionSort (· ≤ ·) xs.dedup).mem_iff.mp h)

/-- The per-mesh significant-level list always satisfies the clustering
chain invariant. -/
theorem findSignificantLevels_chain (zVals : List ℚ) (zMin zMax : ℚ)
    (nBins : ℕ) :
    List.Chain' (fun a b => a + 1/10 ≤ b)
      (findSignificantLevels zVals zMin zMax nBins) := by
  rw [findSignificantLevels]
  split_ifs with h
  · simp
  · refine clusterPass_chain id _ ?_ (pySortedSet_sorted _)
    intro x hx
    refine ⟨by simp, ?_⟩
    have hx' := mem_pySortedSet hx
    rcases List.mem_cons.mp hx' with h1 | h1
    · exact h1 ▸ round3_mult zMin
    rcases List.mem_cons.mp h1 with h2 | h2
    · exact h2 ▸ round3_mult zMax
    · obtain ⟨y, _, rfl⟩ := mem_clusterPass h2
      exact round3_mult y

/-- The aggregate all-levels list always satisfies the clustering chain
invariant. -/
theorem clusterLevels_chain (profiles : List (String × ZProfile)) :
    List.Chain' (fun a b => a + 1/10 ≤ b) (clusterLevels profiles) := by
  rw [clusterLevels]
  split_ifs with h
  · simp
  · exact clusterPass_chain round3 _
      (fun x _ => ⟨round3_close x, round3_mult x⟩) (pySortedSet_sorted _)

/-! ### Python dict membership lemmas -/

theorem mem_pyDictInsert {α : Type} {p : String × α} {l : List (String × α)}
    {k : String} {v : α} (h : p ∈ pyDictInsert l k v) : p ∈ l ∨ p = (k, v) := by
  simp only [pyDictInsert] at h
  split_ifs at h with hc
  · obtain ⟨q, hq, hqe⟩ := List.mem_map.mp h
    by_cases h2 : q.1 == k
    · right; rw [if_pos h2] at hqe; exact hqe.symm
    · left; rw [if_neg h2] at hqe; exact hqe ▸ hq
  · rcases List.mem_append.mp h with h1 | h1
    · exact Or.inl h1
    · exact Or.inr (List.mem_singleton.mp h1)

theorem mem_pyDictOf_aux {α : Type} {p : String × α} :
    ∀ (xs : List (String × α)) (acc : List (String × α)),
      p ∈ xs.foldl (fun a q => pyDictInsert a q.1 q.2) acc →
      p ∈ acc ∨ p ∈ xs := by
  intro xs
  induction xs with
  | nil => intro acc h; exact Or.inl h
  | cons y ys ih =>
    intro acc h
    rcases ih (pyDictInsert acc y.1 y.2) h with h1 | h1
    · rcases mem_pyDictInsert h1 with h2 | h2
      · exact Or.inl h2
      · right
        rw [h2]
        exact List.mem_cons_self y ys
    · exact Or.inr (List.mem_cons_of_mem _ h1)

theorem mem_pyDictOf {α : Type} {p : String × α} {xs : List (String × α)}
    (h : p ∈ pyDictOf xs) : p ∈ xs := by
  rcases mem_pyDictOf_aux xs [] h with h1 | h1
  · simp at h1
  · exact h1

/-! ### Stage 1 structural lemmas -/

/-- Every per-mesh significant-level list is either empty (fallback) or a
`findSignificantLevels` result. -/
theorem profileOne_sig (m : LoadedMesh) :
    (profileOne m).significantLevels = [] ∨
    ∃ zv zmin zmax, (profileOne m).significantLevels =
      findSignificantLevels zv zmin zmax 200 := by
  cases hv : m.vertexData with
  | none => left; simp [profileOne, hv, fallbackProfile]
  | some ev =>
    cases ev with
    | error e => left; simp [profileOne, hv, fallbackProfile]
    | ok verts =>
      cases hz : verts.map (fun v => v.2.2) with
      | nil => left; simp [profileOne, hv, hz, fallbackProfile]
      | cons z zs =>
        right
        refine ⟨z :: zs, (z :: zs).foldl min z, (z :: zs).foldl max z, ?_⟩
        simp [profileOne, hv, hz]

/-- C6: for any finite set of input Z-values, the clustered level lists
produced by the Z-profile extractor — the per-mesh significant-level list
and the aggregate all-levels list — are strictly increasing with every
adjacent gap at least the 0.1 mm cluster tolerance. -/
theorem C6_clustered_levels_invariant :
    (∀ (zVals : List ℚ) (zMin zMax : ℚ) (nBins : ℕ),
       List.Chain' (fun a b => a < b ∧ Z_CLUSTER_TOLERANCE ≤ b - a)
         (findSignificantLevels zVals zMin zMax nBins)) ∧
    (∀ profiles : List (String × ZProfile),
       List.Chain' (fun a b => a < b ∧ Z_CLUSTER_TOLERANCE ≤ b - a)
         (clusterLevels profiles)) ∧
    (∀ meshes : List LoadedMesh,
       List.Chain' (fun a b => a < b ∧ Z_CLUSTER_TOLERANCE ≤ b - a)
         (zExtract meshes).allLevels ∧
       ∀ p ∈ (zExtract meshes).profiles,
         List.Chain' (fun a b => a < b ∧ Z_CLUSTER_TOLERANCE ≤ b - a)
           p.2.significantLevels) := by
  have base : ∀ l : List ℚ, List.Chain' (fun a b => a + 1/10 ≤ b) l →
      List.Chain' (fun a b => a < b ∧ Z_CLUSTER_TOLERANCE ≤ b - a) l := by
    intro l h
    refine h.imp ?_
    intro a b hab
    exact ⟨by linarith, by rw [Z_CLUSTER_TOLERANCE]; linarith⟩
  refine ⟨fun zv z1 z2 n => base _ (findSignificantLevels_chain zv z1 z2 n),
    fun ps => base _ (clusterLevels_chain ps), fun meshes => ⟨?_, ?_⟩⟩
  · exact base _ (clusterLevels_chain _)
  · intro p hp
    obtain ⟨m, hm, hpe⟩ := List.mem_map.mp (mem_pyDictOf hp)
    have hsnd : p.2 = profileOne m := by rw [← hpe]
    rw [hsnd]
    rcases profileOne_sig m with h | ⟨zv, z1, z2, h⟩
    · rw [h]; simp
    · rw [h]; exact base _ (findSignificantLevels_chain zv z1 z2 200)

/-- Witness for C6 at a concrete extraction run. -/
theorem C6_witness :
    List.Chain' (fun a b => a < b ∧ Z_CLUSTER_TOLERANCE ≤ b - a)
      (zExtract [noVertexMesh]).allLevels ∧
    List.Chain' (fun a b => a < b ∧ Z_CLUSTER_TOLERANCE ≤ b - a)
      (("slab", { meshName := "slab", zMin := 0, zMax := 8, zThickness := 8
        : ZProfile }) : String × ZProfile).2.significantLevels :=
  ⟨(C6_clustered_levels_invariant.2.2 [noVertexMesh]).1,
   (C6_clustered_levels_invariant.2.2 [noVertexMesh]).2
     ("slab", { meshName := "slab", zMin := 0, zMax := 8, zThickness := 8 })
     (by simp [zExtract, nonDxf, noVertexMesh, pyDictOf, pyDictInsert,
       profileOne, fallbackProfile])⟩

/-- C5 (amended): a mesh record with no vertex data yields, without
failing, the fallback profile: the precomputed Z-min/Z-max, and an empty
significant-level list (zero levels, not one). -/
theorem C5_no_vertex_fallback (m : LoadedMesh) (h : m.vertexData = none) :
    profileOne m =
      { meshName := m.name, zMin := m.zMin, zMax := m.zMax,
        zThickness := m.zMax - m.zMin, significantLevels := [],
        isFlatSlab := false } := by
  simp [profileOne, h, fallbackProfile]

/-- Witness for C5 (amended) on a concrete degenerate mesh. -/
theorem C5_no_vertex_fallback_witness :
    profileOne noVertexMesh =
      { meshName := noVertexMesh.name,
        zMin := noVertexMesh.zMin, zMax := noVertexMesh.zMax,
        zThickness := noVertexMesh.zMax - noVertexMesh.zMin,
        significantLevels := [], isFlatSlab := false } :=
  C5_no_vertex_fallback noVertexMesh rfl

/-- C5 counterexample: extracting a mesh with no vertex data produces a
profile whose significant-level list is empty — zero levels, not the
single level the claim states. -/
theorem C5_zero_levels_counterexample :
    (zExtract [noVertexMesh]).profiles =
      [("slab",
        { meshName := "slab", zMin := 0, zMax := 8, zThickness := 8,
          significantLevels := [], isFlatSlab := false })] ∧
    ¬ ((profileOne noVertexMesh).significantLevels.length = 1) := by
  constructor
  · simp [zExtract, nonDxf, noVertexMesh, pyDictOf, pyDictInsert, profileOne,
      fallbackProfile]
  · simp [profileOne, noVertexMesh, fallbackProfile]

/-! ### Stage 2 keyword-table lemmas -/

/-- `updatePair` never changes a pair's names or relationship. -/
theorem updatePair_keeps_names (dict : List (String × LoadedMesh))
    (p : VariantPair) :
    (updatePair dict p).1.variantName = p.variantName ∧
    (updatePair dict p).1.baseName = p.baseName ∧
    (updatePair dict p).1.relationship = p.relationship := by
  rw [updatePair]
  rcases dict.lookup p.baseName with _ | bm <;>
    rcases dict.lookup p.variantName with _ | vm <;> simp

/-- Every detected pair's variant name carries a variant keyword. -/
theorem detectPairs_classified {p : VariantPair} {names : List String}
    (hp : p ∈ detectPairs names) :
    ∃ rel, classifyVariantName p.variantName = some rel := by
  obtain ⟨nm, _, hg⟩ := List.mem_filterMap.mp hp
  rcases h1 : classifyVariantName nm with _ | rel
  · rw [h1] at hg; simp at hg
  · rw [h1] at hg
    rcases h2 : findBase nm names with _ | base
    · rw [h2] at hg; simp at hg
    · rw [h2] at hg
      simp only at hg
      by_cases h3 : base ≠ "" ∧ base ≠ nm
      · rw [if_pos h3] at hg
        simp only [Option.some.injEq] at hg
        exact ⟨rel, by rw [← hg]; exact h1⟩
      · rw [if_neg h3] at hg
        exact Option.noConfusion hg

/-- C7 (amended): the variant keyword table is evaluated in the source
order "removed", "no holes", "without", "except", "only" with
first-match-wins semantics; in particular a name containing both "without"
and "no holes" (and not "removed") is classified holes_removed, and a name
with no keyword yields no variant pair. -/
theorem C7_ordered_keyword_table :
    (∀ name, strContainsSub (pyLower name) "removed" = true →
        classifyVariantName name = some "subtracted") ∧
    (∀ name, strContainsSub (pyLower name) "removed" = false →
        strContainsSub (pyLower name) "no holes" = true →
        classifyVariantName name = some "holes_removed") ∧
    (∀ name, strContainsSub (pyLower name) "removed" = false →
        strContainsSub (pyLower name) "no holes" = false →
        strContainsSub (pyLower name) "without" = true →
        classifyVariantName name = some "subtracted") ∧
    (∀ name, strContainsSub (pyLower name) "removed" = false →
        strContainsSub (pyLower name) "no holes" = false →
        strContainsSub (pyLower name) "without" = false →
        strContainsSub (pyLower name) "except" = true →
        classifyVariantName name = some "feature_present") ∧
    (∀ name, strContainsSub (pyLower name) "removed" = false →
        strContainsSub (pyLower name) "no holes" = false →
        strContainsSub (pyLower name) "without" = false →
        strContainsSub (pyLower name) "except" = false →
        strContainsSub (pyLower name) "only" = true →
        classifyVariantName name = some "feature_isolated") ∧
    (∀ name, strContainsSub (pyLower name) "removed" = false →
        strContainsSub (pyLower name) "no holes" = false →
        strContainsSub (pyLower name) "without" = false →
        strContainsSub (pyLower name) "except" = false →
        strContainsSub (pyLower name) "only" = false →
        classifyVariantName name = none) ∧
    (∀ (meshes : List LoadedMesh) (name : String),
        classifyVariantName name = none →
        ∀ pr ∈ (variantCompute meshes).pairs, pr.variant ≠ name) := by
  refine ⟨?_, ?_, ?_, ?_, ?_, ?_, ?_⟩
  · intro name h1; simp [classifyVariantName, VARIANT_KEYWORDS, List.find?, h1]
  · intro name h1 h2
    simp [classifyVariantName, VARIANT_KEYWORDS, List.find?, h1, h2]
  · intro name h1 h2 h3
    simp [classifyVariantName, VARIANT_KEYWORDS, List.find?, h1, h2, h3]
  · intro name h1 h2 h3 h4
    simp [classifyVariantName, VARIANT_KEYWORDS, List.find?, h1, h2, h3, h4]
  · intro name h1 h2 h3 h4 h5
    simp [classifyVariantName, VARIANT_KEYWORDS, List.find?, h1, h2, h3, h4, h5]
  · intro name h1 h2 h3 h4 h5
    simp [classifyVariantName, VARIANT_KEYWORDS, List.find?, h1, h2, h3, h4, h5]
  · intro meshes name hnone pr hpr hEq
    rw [variantCompute] at hpr
    simp only at hpr
    obtain ⟨u, hu, hue⟩ := List.mem_map.mp hpr
    obtain ⟨p, hp, hpe⟩ := List.mem_map.mp hu
    have hvar : pr.variant = p.variantName := by
      rw [← hue, ← hpe]
      exact (updatePair_keeps_names _ p).1
    obtain ⟨rel, hrel⟩ := detectPairs_classified hp
    rw [← hvar, hEq] at hrel
    rw [hnone] at hrel
    exact Option.noConfusion hrel

/-- C7 counterexample: a name containing both "without" and "no holes" is
classified holes_removed (the table checks "no holes" before "without"),
not subtracted as the claim's ordering implies. -/
theorem C7_without_no_holes_counterexample :
    classifyVariantName "Plate without no holes" = some "holes_removed" ∧
    ("holes_removed" : String) ≠ "subtracted" := by
  exact ⟨by decide, by decide⟩

/-- Witness for C7 (amended) at concrete names. -/
theorem C7_ordered_keyword_table_witness :
    classifyVariantName "Body without no holes" = some "holes_removed" ∧
    classifyVariantName "plain body" = none ∧
    ∀ pr ∈ (variantCompute []).pairs, pr.variant ≠ "plain body" := by
  obtain ⟨h1, h2, h3, h4, h5, h6, h7⟩ := C7_ordered_keyword_table
  refine ⟨h2 _ (by decide) (by decide),
    h6 _ (by decide) (by decide) (by decide) (by decide) (by decide),
    h7 [] _ (h6 _ (by decide) (by decide) (by decide) (by decide) (by decide))⟩

/-! ### Stage 3 role lemmas -/

/-- `_classify_role` only ever returns one of five roles (never
"subtractive"). -/
theorem classifyRole_cases (z1 z2 : ℚ) (bo : Bool) (b1 b2 : ℚ)
    (auto : String) :
    classifyRole z1 z2 bo b1 b2 auto ∈
      (["base_solid", "pocket_fill", "additive", "variant", "unknown"] :
        List String) := by
  rw [classifyRole]
  split_ifs <;> simp

/-- C2 (amended): with a body Z-range of [0, 8], a non-body-candidate
component with Z-range [1, 5] and no special filename role hint is
classified pocket_fill; the body candidate itself is base_solid; but a
non-candidate component whose Z-range equals the body's own range [0, 8]
and has no role hint is classified unknown, not base_solid. -/
theorem C2_z_subset_roles :
    (∀ auto : String, auto ≠ "full_assembly" → auto ≠ "variant_removed" →
        classifyRole 1 5 false 0 8 auto = "pocket_fill") ∧
    (∀ (z1 z2 b1 b2 : ℚ) (auto : String),
        classifyRole z1 z2 true b1 b2 auto = "base_solid") ∧
    (∀ auto : String, auto ≠ "full_assembly" → auto ≠ "variant_removed" →
        auto ≠ "isolated_component" →
        classifyRole 0 8 false 0 8 auto = "unknown") := by
  refine ⟨?_, ?_, ?_⟩
  · intro auto h1 h2
    have e1 : (auto == "full_assembly") = false := beq_eq_false_iff_ne.mpr h1
    have e2 : (auto == "variant_removed") = false := beq_eq_false_iff_ne.mpr h2
    norm_num [classifyRole, Z_SUBSET_TOLERANCE, e1, e2]
  · intro z1 z2 b1 b2 auto
    simp [classifyRole]
  · intro auto h1 h2 h3
    have e1 : (auto == "full_assembly") = false := beq_eq_false_iff_ne.mpr h1
    have e2 : (auto == "variant_removed") = false := beq_eq_false_iff_ne.mpr h2
    have e3 : (auto == "isolated_component") = false := beq_eq_false_iff_ne.mpr h3
    norm_num [classifyRole, Z_SUBSET_TOLERANCE, e1, e2, e3]

/-- Role of a body-candidate component of the fixtures. -/
theorem classifyRole_fixture_body : classifyRole 0 8 true 0 8 "" = "base_solid" := by
  norm_num [classifyRole]

/-- Role of an unhinted component spanning the whole body range. -/
theorem classifyRole_fixture_twin : classifyRole 0 8 false 0 8 "" = "unknown" := by
  rw [classifyRole, Z_SUBSET_TOLERANCE]
  norm_num
  simp

/-- C2 counterexample: classifying two meshes that both span the body
range [0, 8] (the second with no role hint) leaves the non-candidate twin
with role "unknown", not base_solid. -/
theorem C2_equal_range_counterexample :
    topoClassify [bodyMesh, twinMesh] zpBody =
      [{ name := "body", role := "base_solid", zMin := 0, zMax := 8,
         sourceFile := "body.stl", csgOrder := 0 },
       { name := "twin", role := "unknown", zMin := 0, zMax := 8,
         sourceFile := "twin.stl", csgOrder := 1 }] ∧
    ("unknown" : String) ≠ "base_solid" := by
  constructor
  · simp only [topoClassify]
    simp [zpBody, bodyMesh, twinMesh, nonDxf, pyDictOf, pyDictInsert,
      classifyRole_fixture_body, classifyRole_fixture_twin,
      List.insertionSort, List.orderedInsert, csgSortLe, roleOrder,
      List.lookup, List.enum, List.enumFrom]
  · decide

/-- Witness for C2 (amended) at concrete role hints. -/
theorem C2_z_subset_roles_witness :
    classifyRole 1 5 false 0 8 "" = "pocket_fill" ∧
    classifyRole 0 8 true 0 8 "" = "base_solid" ∧
    classifyRole 0 8 false 0 8 "" = "unknown" :=
  ⟨C2_z_subset_roles.1 "" (by decide) (by decide),
   C2_z_subset_roles.2.1 0 8 0 8 "",
   C2_z_subset_roles.2.2 "" (by decide) (by decide) (by decide)⟩

/-- C10: every component returned by `TopologyClassifier.classify` has a
role among base_solid, pocket_fill, additive, variant and unknown — the
role "subtractive" of the declared enumeration is never assigned. -/
theorem C10_no_subtractive (meshes : List LoadedMesh) (zp : ZProfileResult) :
    ∀ c ∈ topoClassify meshes zp,
      c.role ∈ (["base_solid", "pocket_fill", "additive", "variant",
        "unknown"] : List String) := by
  intro c hc
  simp only [topoClassify] at hc
  obtain ⟨ic, hic, rfl⟩ := List.mem_map.mp hc
  show ic.2.role ∈ _
  have h2 : ic.2 ∈ (List.enum _).map Prod.snd := List.mem_map_of_mem _ hic
  rw [List.enum_map_snd] at h2
  have h3 := (List.perm_insertionSort csgSortLe _).subset h2
  obtain ⟨nm, _, heq⟩ := List.mem_map.mp h3
  rw [← heq]
  exact classifyRole_cases _ _ _ _ _ _

/-- Witness for C10 at a concrete classification run. -/
theorem C10_no_subtractive_witness :
    ({ name := "slab", role := "unknown", zMin := 0, zMax := 8,
       sourceFile := "slab.obj", csgOrder := 0 } : ClassifiedComponent).role ∈
      (["base_solid", "pocket_fill", "additive", "variant", "unknown"] :
        List String) :=
  C10_no_subtractive [noVertexMesh] zpBody _ (by
    simp only [topoClassify]
    simp [zpBody, noVertexMesh, nonDxf, pyDictOf, pyDictInsert,
      classifyRole_fixture_twin, List.insertionSort, List.orderedInsert,
      List.lookup, List.enum, List.enumFrom])

/-- C3 (amended): a mesh whose vertex set is exactly four points — in
particular the perfect square centred at the origin — falls under the
8-vertex minimum, so the symmetry detector returns the default result: no
mirror symmetry and rotational order 0 with score 0. -/
theorem C3_four_vertex_default :
    (∀ (a b c d : Vec3) (bd : Except Unit (Vec3 × Vec3)),
       analyseMesh [a, b, c, d] bd = {}) ∧
    (∀ (m : LoadedMesh) (a b c d : Vec3),
       m.vertexData = some (.ok [a, b, c, d]) →
       symOne m = some (m.name, {})) := by
  have h1 : ∀ (a b c d : Vec3) (bd : Except Unit (Vec3 × Vec3)),
      analyseMesh [a, b, c, d] bd = {} := by
    intro a b c d bd
    rw [analyseMesh.eq_def, if_pos]
    simp
  refine ⟨h1, ?_⟩
  intro m a b c d hm
  simp only [symOne, hm]
  rw [h1]

/-- Witness for C3 (amended) at the concrete square mesh. -/
theorem C3_four_vertex_default_witness :
    analyseMesh [(10, 10, 0), (10, -10, 0), (-10, -10, 0), (-10, 10, 0)]
      (.ok ((-10, -10, 0), (10, 10, 0))) = {} ∧
    symOne squareMesh = some (squareMesh.name, {}) :=
  ⟨C3_four_vertex_default.1 _ _ _ _ _,
   C3_four_vertex_default.2 squareMesh _ _ _ _ rfl⟩

/-- C3 counterexample: for the 4-vertex perfect square, the detector
reports the default result — no mirror symmetry, rotational order 0 —
instead of mirror symmetry on both in-plane planes and order 4 with
score 1.0. -/
theorem C3_square_counterexample :
    symDetect [squareMesh] = [("square", {})] ∧
    ({} : SymmetryResult).rotationalN = 0 ∧
    ({} : SymmetryResult).mirrorXZ = false ∧
    ({} : SymmetryResult).mirrorYZ = false := by
  refine ⟨?_, rfl, rfl, rfl⟩
  have h4 : analyseMesh [((10 : ℚ), (10 : ℚ), (0 : ℚ)), (10, -10, 0),
      (-10, -10, 0), (-10, 10, 0)] (.ok ((-10, -10, 0), (10, 10, 0))) = {} := by
    rw [analyseMesh.eq_def, if_pos]
    simp
  simp [symDetect, symOne, squareMesh, pyDictOf, pyDictInsert, h4]

/-! ### Stage 6 theorems -/

theorem pyRound4_eight : pyRound 4 (8 : ℚ) = 8 := by
  rw [pyRound, roundEvenQ]
  norm_num

/-- C9: for two classified components whose bounding boxes coincide only
at the first's Z-max equal to the second's Z-min at Z = 8 within 0.05 mm
(no other axis endpoint pair within tolerance), `BoundaryDetector.detect`
produces exactly one CoincidentBoundary, on axis Z, flagged as needing
clearance expansion. -/
theorem C9_single_z_boundary (ma mb : LoadedMesh)
    (ca cb : ClassifiedComponent) (A B : Vec3 × Vec3)
    (hca : ca.name = ma.name) (hcb : cb.name = mb.name)
    (hne : ma.name ≠ mb.name)
    (hA : ma.boundingBox = some A) (hB : mb.boundingBox = some B)
    (hzv : A.2.2.2 = 8)
    (hz : |A.2.2.2 - B.1.2.2| < COINCIDENCE_TOLERANCE)
    (hx1 : ¬ |A.2.1 - B.1.1| < COINCIDENCE_TOLERANCE)
    (hx2 : ¬ |A.1.1 - B.2.1| < COINCIDENCE_TOLERANCE)
    (hy1 : ¬ |A.2.2.1 - B.1.2.1| < COINCIDENCE_TOLERANCE)
    (hy2 : ¬ |A.1.2.1 - B.2.2.1| < COINCIDENCE_TOLERANCE)
    (hz2 : ¬ |A.1.2.2 - B.2.2.2| < COINCIDENCE_TOLERANCE) :
    boundaryDetect [ma, mb] [ca, cb] =
      [{ componentA := ca.name, componentB := cb.name, axis := "Z",
         value := 8, needsEps := true }] := by
  have hne2 : mb.name ≠ ma.name := Ne.symm hne
  have hdict : pyDictOf [(ma.name, ma), (mb.name, mb)] =
      [(ma.name, ma), (mb.name, mb)] := by
    simp [pyDictOf, pyDictInsert, hne, hne2]
  have l1 : List.lookup ca.name [(ma.name, ma), (mb.name, mb)] = some ma := by
    rw [hca]; simp [List.lookup]
  have hbne2 : (mb.name == ma.name) = false := beq_eq_false_iff_ne.mpr hne2
  have l2 : List.lookup cb.name [(ma.name, ma), (mb.name, mb)] = some mb := by
    rw [hcb]; simp [List.lookup, hbne2]
  rw [boundaryDetect, boundaryDetectRaw]
  simp only [orderedPairs, List.map, List.foldr, List.append_nil,
    List.nil_append, List.map_nil]
  rw [hdict, comparePair]
  rw [l1, l2]
  simp only [hA, hB]
  simp only [axisChecks]
  rw [if_neg hx1, if_neg hx2, if_neg hy1, if_neg hy2, if_pos hz, if_neg hz2]
  simp [hzv, pyRound4_eight]

/-- Witness for C9 on the concrete stacked-component fixture. -/
theorem C9_single_z_boundary_witness :
    boundaryDetect [lowerMesh, upperMesh] [lowerComp, upperComp] =
      [{ componentA := "lower", componentB := "upper", axis := "Z",
         value := 8, needsEps := true }] :=
  C9_single_z_boundary lowerMesh upperMesh lowerComp upperComp
    ((0, 0, 0), (10, 10, 8)) ((20, 20, 8), (30, 30, 16))
    rfl rfl (by decide) rfl rfl (by norm_num)
    (by norm_num [COINCIDENCE_TOLERANCE])
    (by norm_num [COINCIDENCE_TOLERANCE])
    (by norm_num [COINCIDENCE_TOLERANCE])
    (by norm_num [COINCIDENCE_TOLERANCE])
    (by norm_num [COINCIDENCE_TOLERANCE])
    (by norm_num [COINCIDENCE_TOLERANCE])

/-! ### Stage 4 deduplication lemmas -/

theorem dedupAux_eq_append (fs : List DetectedFeature) :
    ∀ seen, ∃ t, dedupAux seen fs = seen ++ t ∧ t.Sublist fs := by
  induction fs with
  | nil => intro seen; exact ⟨[], by simp [dedupAux], List.nil_sublist _⟩
  | cons f fs ih =>
    intro seen
    rw [dedupAux]
    by_cases h : ∃ s ∈ seen, isDupMatch s f
    · rw [if_pos h]
      obtain ⟨t, ht, hs⟩ := ih seen
      exact ⟨t, ht, hs.trans (List.sublist_cons_self f fs)⟩
    · rw [if_neg h]
      obtain ⟨t, ht, hs⟩ := ih (seen ++ [f])
      refine ⟨f :: t, ?_, hs.cons₂ f⟩
      rw [ht]
      simp

/-- `_deduplicate` returns an order-preserving sublist of its input. -/
theorem deduplicate_sublist (fs : List DetectedFeature) :
    (deduplicate fs).Sublist fs := by
  obtain ⟨t, ht, hs⟩ := dedupAux_eq_append fs []
  rw [deduplicate, ht]
  simpa using hs

theorem dedupAux_pairwise (fs : List DetectedFeature) :
    ∀ seen, seen.Pairwise (fun a b => ¬ isDupMatch a b) →
      (dedupAux seen fs).Pairwise (fun a b => ¬ isDupMatch a b) := by
  induction fs with
  | nil => intro seen h; simpa [dedupAux] using h
  | cons f fs ih =>
    intro seen h
    rw [dedupAux]
    by_cases hd : ∃ s ∈ seen, isDupMatch s f
    · rw [if_pos hd]; exact ih seen h
    · rw [if_neg hd]
      refine ih _ ?_
      rw [List.pairwise_append]
      refine ⟨h, List.pairwise_singleton _ _, ?_⟩
      intro a ha b hb
      rw [List.mem_singleton] at hb
      subst hb
      exact fun hdup => hd ⟨a, ha, hdup⟩

theorem dedupAux_covers (fs : List DetectedFeature) :
    ∀ seen g, g ∈ fs → ∃ s ∈ dedupAux seen fs, s = g ∨ isDupMatch s g := by
  induction fs with
  | nil => intro seen g hg; simp at hg
  | cons f fs ih =>
    intro seen g hg
    rw [dedupAux]
    rcases List.mem_cons.mp hg with rfl | hg'
    · by_cases hd : ∃ s ∈ seen, isDupMatch s g
      · rw [if_pos hd]
        obtain ⟨s, hs, hdup⟩ := hd
        obtain ⟨t, ht, _⟩ := dedupAux_eq_append fs seen
        exact ⟨s, by rw [ht]; exact List.mem_append_left _ hs, Or.inr hdup⟩
      · rw [if_neg hd]
        obtain ⟨t, ht, _⟩ := dedupAux_eq_append fs (seen ++ [g])
        refine ⟨g, ?_, Or.inl rfl⟩
        rw [ht, List.append_assoc]
        exact List.mem_append_right _ (List.mem_append_left _
          (List.mem_singleton_self g))
    · by_cases hd : ∃ s ∈ seen, isDupMatch s f
      · rw [if_pos hd]; exact ih seen g hg'
      · rw [if_neg hd]; exact ih _ g hg'

/-- C8 (amended): `FeatureDetector._deduplicate` returns an
order-preserving sublist keeping, for each feature, either the feature
itself or an earlier-kept duplicate of it; in the output no two retained
circular_hole features have center distance under 1 mm, no two retained
rectangular_slot features are within 1 mm on both min corners, and no two
retained features of the same kind among fillet and chamfer share the same
provenance string (a fillet and a chamfer from the same provenance are
both retained, the duplicate test requiring equal kinds). -/
theorem C8_dedup_separation (fs : List DetectedFeature) :
    (deduplicate fs).Sublist fs ∧
    (deduplicate fs).Pairwise (fun a b =>
      (a.featureType = "circular_hole" → b.featureType = "circular_hole" →
        ¬ Real.sqrt ((pget b "center_x" - pget a "center_x") ^ 2 +
            (pget b "center_y" - pget a "center_y") ^ 2) < 1) ∧
      (a.featureType = "rectangular_slot" →
        b.featureType = "rectangular_slot" →
        ¬ (|pget b "x_min" - pget a "x_min"| < 1 ∧
           |pget b "y_min" - pget a "y_min"| < 1)) ∧
      (a.featureType = "fillet" → b.featureType = "fillet" →
        a.detectedFrom ≠ b.detectedFrom) ∧
      (a.featureType = "chamfer" → b.featureType = "chamfer" →
        a.detectedFrom ≠ b.detectedFrom)) ∧
    (∀ f ∈ fs, ∃ s ∈ deduplicate fs, s = f ∨ isDupMatch s f) := by
  refine ⟨deduplicate_sublist fs, ?_, fun f hf => dedupAux_covers fs [] f hf⟩
  have hp := dedupAux_pairwise fs [] List.Pairwise.nil
  rw [deduplicate]
  refine hp.imp ?_
  intro a b hnd
  refine ⟨?_, ?_, ?_, ?_⟩
  · intro ha hb hdist
    exact hnd ⟨ha.trans hb.symm, Or.inl ⟨hb, hdist⟩⟩
  · intro ha hb hcl
    exact hnd ⟨ha.trans hb.symm, Or.inr (Or.inl ⟨hb, hcl.1, hcl.2⟩)⟩
  · intro ha hb heq
    exact hnd ⟨ha.trans hb.symm, Or.inr (Or.inr ⟨Or.inl hb, heq⟩)⟩
  · intro ha hb heq
    exact hnd ⟨ha.trans hb.symm, Or.inr (Or.inr ⟨Or.inr hb, heq⟩)⟩

/-- Witness for C8 (amended) on a concrete feature list. -/
theorem C8_dedup_separation_witness :
    (deduplicate [filletFeat, chamferFeat]).Sublist
      [filletFeat, chamferFeat] ∧
    ∃ s ∈ deduplicate [filletFeat, chamferFeat],
      s = filletFeat ∨ isDupMatch s filletFeat :=
  ⟨(C8_dedup_separation [filletFeat, chamferFeat]).1,
   (C8_dedup_separation [filletFeat, chamferFeat]).2.2 filletFeat
     (List.mem_cons_self _ _)⟩

/-- C8 counterexample: a fillet and a chamfer from the same provenance
string are both retained by deduplication — two retained fillet-or-chamfer
features may share the same provenance, against the claim's reading. -/
theorem C8_shared_provenance_counterexample :
    deduplicate [filletFeat, chamferFeat] = [filletFeat, chamferFeat] ∧
    filletFeat.featureType = "fillet" ∧
    chamferFeat.featureType = "chamfer" ∧
    filletFeat.detectedFrom = chamferFeat.detectedFrom ∧
    filletFeat ≠ chamferFeat := by
  refine ⟨?_, rfl, rfl, rfl, ?_⟩
  · have hno : ¬ ∃ s ∈ ([] ++ [filletFeat] : List DetectedFeature),
        isDupMatch s chamferFeat := by
      rintro ⟨s, hs, hdup⟩
      simp only [List.nil_append, List.mem_singleton] at hs
      subst hs
      have h1 := hdup.1
      simp [filletFeat, chamferFeat] at h1
    rw [deduplicate, dedupAux, if_neg (by simp), dedupAux, if_neg hno,
      dedupAux]
    simp
  · intro h
    have h1 := congrArg DetectedFeature.featureType h
    simp [filletFeat, chamferFeat] at h1

/-! ### Stage 4 cross-section classification lemmas -/

theorem sqrt400 : Real.sqrt 400 = 20 := by
  rw [show (400 : ℝ) = 20 ^ 2 by norm_num,
    Real.sqrt_sq (by norm_num : (0 : ℝ) ≤ 20)]

theorem sqrt900 : Real.sqrt 900 = 30 := by
  rw [show (900 : ℝ) = 30 ^ 2 by norm_num,
    Real.sqrt_sq (by norm_num : (0 : ℝ) ≤ 30)]

theorem shoelace_openSquare : shoelace openSquarePath = 600 := by
  have hr : List.range 4 = [0, 1, 2, 3] := rfl
  rw [shoelace, openSquarePath]
  norm_num [hr]

theorem shoelace_closedSquare : shoelace closedSquarePath = 600 := by
  have hr : List.range 5 = [0, 1, 2, 3, 4] := rfl
  rw [shoelace, closedSquarePath]
  norm_num [hr]

theorem perimeter_openSquare : perimeterR openSquarePath = 70 := by
  rw [perimeterR, openSquarePath]
  norm_num [sqrt400, sqrt900]

theorem perimeter_closedSquare : perimeterR closedSquarePath = 100 := by
  rw [perimeterR, closedSquarePath]
  norm_num [sqrt400, sqrt900]

/-- The open 4-vertex square path misses its closing edge, so the
perimeter is 70 and the circularity saturates at 1. -/
theorem circularity_openSquare : circularity openSquarePath 600 = 1 := by
  rw [circularity]
  simp only [perimeter_openSquare]
  rw [if_neg (by norm_num : ¬ (70 : ℝ) ≤ 0)]
  rw [min_eq_left]
  have hpi := Real.pi_gt_three
  rw [le_div_iff (by norm_num : (0 : ℝ) < 70 ^ 2)]
  push_cast
  nlinarith

/-- The closed square path has perimeter 100 and circularity
`0.24·π < 0.8`. -/
theorem circularity_closedSquare_lt :
    ¬ CIRCLE_THRESHOLD ≤ circularity closedSquarePath 600 := by
  rw [circularity, CIRCLE_THRESHOLD]
  simp only [perimeter_closedSquare]
  rw [if_neg (by norm_num : ¬ (100 : ℝ) ≤ 0)]
  rw [not_le]
  have hx : 4 * Real.pi * ((600 : ℚ) : ℝ) / 100 ^ 2 < 8/10 := by
    have hpi := Real.pi_lt_315
    rw [div_lt_iff (by norm_num : (0 : ℝ) < 100 ^ 2)]
    push_cast
    nlinarith
  calc min 1 (4 * Real.pi * ((600 : ℚ) : ℝ) / 100 ^ 2) ≤
      4 * Real.pi * ((600 : ℚ) : ℝ) / 100 ^ 2 := min_le_right _ _
    _ < 8/10 := hx

/-- C4 counterexample: the literal 4-vertex open path (±10,0), (±10,30)
is classified circular_hole: the perimeter term omits the closing edge
(70 instead of 100), so min(1, 4π·Area/Perimeter²) evaluates to 1 ≥ 0.80. -/
theorem C4_open_path_counterexample :
    (classifyPath (1/10) "body" openSquarePath).map (fun f => f.featureType) =
      some "circular_hole" := by
  simp only [classifyPath]
  rw [if_neg (by norm_num [openSquarePath] :
    ¬ (openSquarePath.length < 3))]
  rw [shoelace_openSquare]
  rw [if_neg (by norm_num [MIN_FEATURE_AREA] : ¬ (600 : ℚ) < MIN_FEATURE_AREA)]
  rw [circularity_openSquare]
  rw [if_pos (by norm_num [CIRCLE_THRESHOLD] : CIRCLE_THRESHOLD ≤ (1 : ℝ))]
  simp

theorem simplify_closedSquare :
    simplifyPolygon 1 closedSquarePath =
      [(-10, 0), (10, 0), (10, 30), (-10, 30)] := by
  simp [simplifyPolygon, closedSquarePath, rdp]
  norm_num [rdpAux, idxMax, idxMaxAux, sqDistLine, sqDistPt]

theorem round3_twenty : round3 20 = 20 := by
  simp only [round3, pyRound, roundEvenQ]
  norm_num

theorem round3_thirty : round3 30 = 30 := by
  simp only [round3, pyRound, roundEvenQ]
  norm_num

/-- The closed square path passes the 4-corner right-angle test. -/
theorem isRectangular_closedSquare : isRectangular closedSquarePath := by
  rw [isRectangular]
  simp only [simplify_closedSquare]
  refine ⟨rfl, ?_⟩
  intro i hi
  interval_cases i <;>
    refine ⟨?_, ?_⟩ <;>
    norm_num [List.getD, sqrt400, sqrt900]

/-- C4 (amended): for the closed cross-section path listing the 4 corners
(±10,0), (±10,30) with the first vertex repeated, the circularity
0.24·π ≈ 0.754 is below the 0.80 threshold and the path is classified
rectangular_slot with width 20 and height 30. -/
theorem C4_closed_path_rectangular :
    (classifyPath (1/10) "body" closedSquarePath).map
      (fun f => (f.featureType, pget f "width", pget f "height")) =
      some ("rectangular_slot", 20, 30) := by
  have hxmin : listMinQ (closedSquarePath.map (fun p => p.1)) = -10 := by
    norm_num [listMinQ, closedSquarePath]
  have hxmax : listMaxQ (closedSquarePath.map (fun p => p.1)) = 10 := by
    norm_num [listMaxQ, closedSquarePath]
  have hymin : listMinQ (closedSquarePath.map (fun p => p.2)) = 0 := by
    norm_num [listMinQ, closedSquarePath]
  have hymax : listMaxQ (closedSquarePath.map (fun p => p.2)) = 30 := by
    norm_num [listMaxQ, closedSquarePath]
  simp only [classifyPath]
  rw [if_neg (by norm_num [closedSquarePath] :
    ¬ (closedSquarePath.length < 3))]
  rw [shoelace_closedSquare]
  rw [if_neg (by norm_num [MIN_FEATURE_AREA] :
    ¬ (600 : ℚ) < MIN_FEATURE_AREA)]
  rw [if_neg circularity_closedSquare_lt]
  rw [if_pos isRectangular_closedSquare]
  rw [hxmin, hxmax, hymin, hymax]
  simp only [Option.map_some']
  norm_num [pget, List.lookup, round3_twenty, round3_thirty,
    show (("width" == "x_min") : Bool) = false from rfl,
    show (("width" == "x_max") : Bool) = false from rfl,
    show (("width" == "y_min") : Bool) = false from rfl,
    show (("width" == "y_max") : Bool) = false from rfl,
    show (("width" == "width") : Bool) = true from rfl,
    show (("height" == "x_min") : Bool) = false from rfl,
    show (("height" == "x_max") : Bool) = false from rfl,
    show (("height" == "y_min") : Bool) = false from rfl,
    show (("height" == "y_max") : Bool) = false from rfl,
    show (("height" == "width") : Bool) = false from rfl,
    show (("height" == "height") : Bool) = true from rfl]

/-! ### Pipeline error-isolation lemmas (C1) -/

theorem mem_foldr_append {α β : Type} (g : α → List β) (l : List α) (y : β)
    (hy : y ∈ l.foldr (fun x acc => g x ++ acc) []) : ∃ x ∈ l, y ∈ g x := by
  induction l with
  | nil => simp at hy
  | cons x xs ih =>
    simp only [List.foldr_cons, List.mem_append] at hy
    rcases hy with h | h
    · exact ⟨x, List.mem_cons_self x xs, h⟩
    · obtain ⟨x', hx', hy'⟩ := ih h
      exact ⟨x', List.mem_cons_of_mem _ hx', hy'⟩

theorem mem_pair_ifs {b r1 r2 : CoincidentBoundary} {c1 c2 : Prop}
    [Decidable c1] [Decidable c2]
    (hb : b ∈ (if c1 then [r1] else []) ++ (if c2 then [r2] else [])) :
    b = r1 ∨ b = r2 := by
  split_ifs at hb <;> simp_all

theorem axisChecks_axis {b : CoincidentBoundary} {na nb lbl : String}
    {alo ahi blo bhi : ℚ} (hb : b ∈ axisChecks na nb lbl alo ahi blo bhi) :
    b.axis = lbl := by
  rw [axisChecks] at hb
  rcases mem_pair_ifs hb with rfl | rfl <;> rfl

theorem compareZRanges_axis {b : CoincidentBoundary}
    {ca cb : ClassifiedComponent} (hb : b ∈ compareZRanges ca cb) :
    b.axis = "Z" := by
  rw [compareZRanges] at hb
  rcases mem_pair_ifs hb with rfl | rfl <;> rfl

theorem comparePair_axis {dict : List (String × LoadedMesh)}
    {ca cb : ClassifiedComponent} {b : CoincidentBoundary}
    (hb : b ∈ comparePair dict ca cb) :
    b.axis ∈ (["X", "Y", "Z"] : List String) := by
  rw [comparePair] at hb
  split at hb
  · split at hb
    · rcases List.mem_append.mp hb with h12 | hz
      · rcases List.mem_append.mp h12 with h | h
        · rw [axisChecks_axis h]; simp
        · rw [axisChecks_axis h]; simp
      · rw [axisChecks_axis hz]; simp
    · rw [compareZRanges_axis hb]; simp
  · simp at hb

/-- C1: every public pipeline entry point is a total function over its
typed inputs, and the exception-isolation structure of the source holds:
a failing per-mesh, per-level or per-pair sub-operation contributes only
its own fallback or empty result, while the remaining meshes, levels and
pairs are processed by the same per-item functions. -/
theorem C1_entry_points_isolate_failures :
    (∀ meshes : List LoadedMesh,
       (zExtract meshes).profiles =
         pyDictOf ((nonDxf meshes).map (fun m => (m.name, profileOne m)))) ∧
    (∀ m : LoadedMesh, m.vertexData = none →
       profileOne m = fallbackProfile m) ∧
    (∀ (m : LoadedMesh) (e : Unit), m.vertexData = some (.error e) →
       profileOne m = fallbackProfile m) ∧
    (∀ meshes : List LoadedMesh,
       (variantCompute meshes).pairs.length =
         (detectPairs ((pyDictOf ((nonDxf meshes).map
           (fun m => (m.name, m)))).map (fun p => p.1))).length) ∧
    (∀ (dict : List (String × LoadedMesh)) (p : VariantPair),
       dict.lookup p.baseName = none ∨ dict.lookup p.variantName = none →
       updatePair dict p = (p, none)) ∧
    (∀ (meshes : List LoadedMesh) (zp : ZProfileResult),
       (topoClassify meshes zp).length =
         (pyDictOf ((nonDxf meshes).map (fun m => (m.name, m)))).length) ∧
    (∀ (m : LoadedMesh) (z : ℚ) (e : Unit),
       m.sectionAt (zMidOf m z) = .error e → analyseCrossSection m z = []) ∧
    (∀ (m : LoadedMesh) (e : Unit), m.edgeData = some (.error e) →
       detectFilletsChamfers m = []) ∧
    (∀ (meshes : List LoadedMesh) (zp : ZProfileResult)
       (vd : VariantDiffOut) (brep : List BrepFace),
       ∀ f ∈ featureDetect meshes zp vd brep, f.name ≠ "") ∧
    (∀ fs : List DetectedFeature, ∀ pat ∈ patternDetect fs,
       pat.patternType = "linear" ∨ pat.patternType = "circular") ∧
    (∀ meshes : List LoadedMesh,
       symDetect meshes = pyDictOf (meshes.filterMap symOne)) ∧
    (∀ (m : LoadedMesh) (e : Unit), m.vertexData = some (.error e) →
       symOne m = some (m.name, {})) ∧
    (∀ m : LoadedMesh, m.vertexData = none → symOne m = none) ∧
    (∀ (dict : List (String × LoadedMesh)) (ca cb : ClassifiedComponent),
       dict.lookup ca.name = none ∨ dict.lookup cb.name = none →
       comparePair dict ca cb = []) ∧
    (∀ (meshes : List LoadedMesh) (comps : List ClassifiedComponent),
       ∀ b ∈ boundaryDetect meshes comps,
         b.axis ∈ (["X", "Y", "Z"] : List String)) := by
  refine ⟨fun _ => rfl, ?_, ?_, ?_, ?_, ?_, ?_, ?_, ?_, ?_, fun _ => rfl,
    ?_, ?_, ?_, ?_⟩
  · intro m h; simp [profileOne, h]
  · intro m e h; simp [profileOne, h]
  · intro meshes; simp [variantCompute]
  · intro dict p h
    rcases h with h | h
    · simp [updatePair, h]
    · rcases hb : dict.lookup p.baseName with _ | bm
      · simp [updatePair, hb]
      · simp [updatePair, hb, h]
  · intro meshes zp
    simp [topoClassify, List.length_insertionSort]
  · intro m z e h; simp [analyseCrossSection, h]
  · intro m e h; simp [detectFilletsChamfers, h]
  · intro meshes zp vd brep f hf
    simp only [featureDetect] at hf
    rcases hbody : chooseBodyMesh
        (pyDictOf ((nonDxf meshes).map (fun m => (m.name, m)))) zp
      with _ | bm
    · rw [hbody] at hf; simp at hf
    · rw [hbody] at hf
      obtain ⟨ifl, _, rfl⟩ := List.mem_map.mp hf
      by_cases hn : ifl.2.name = ""
      · rw [if_pos hn]
        intro heq
        have hl := congrArg String.length heq
        rw [String.length_append, String.length_append] at hl
        have h1 : String.length "_" = 1 := rfl
        have h0 : String.length "" = 0 := rfl
        omega
      · rw [if_neg hn]
        exact hn
  · intro fs pat hpat
    rw [patternDetect] at hpat
    obtain ⟨kg, _, hg⟩ := mem_foldr_append _ _ _ hpat
    by_cases h1 : kg.2.length < 3
    · rw [if_pos h1] at hg; simp at hg
    · rw [if_neg h1] at hg
      by_cases h2 : (extractCentres kg.2).length < 3
      · rw [if_pos h2] at hg; simp at hg
      · rw [if_neg h2] at hg
        rcases h3 : testLinear (extractCentres kg.2) with _ | sds
        · rw [h3] at hg
          rcases h4 : testCircular (extractCentres kg.2) with _ | cr
          · rw [h4] at hg; simp at hg
          · rw [h4] at hg
            rw [List.mem_singleton] at hg
            subst hg
            right; rfl
        · rw [h3] at hg
          rw [List.mem_singleton] at hg
          subst hg
          left; rfl
  · intro m e h; simp [symOne, h]
  · intro m h; simp [symOne, h]
  · intro dict ca cb h
    rcases h with h | h
    · simp [comparePair, h]
    · rcases ha : dict.lookup ca.name with _ | ma
      · simp [comparePair, ha]
      · simp [comparePair, ha, h]
  · intro meshes comps b hb
    rw [boundaryDetect] at hb
    obtain ⟨b₀, hb₀, rfl⟩ := List.mem_map.mp hb
    rw [boundaryDetectRaw] at hb₀
    obtain ⟨pr, _, hpr⟩ := mem_foldr_append _ _ _ hb₀
    show b₀.axis ∈ (["X", "Y", "Z"] : List String)
    exact comparePair_axis hpr

/-- Witness for C1: failure isolation at concrete degenerate meshes. -/
theorem C1_isolation_witness :
    profileOne noVertexMesh = fallbackProfile noVertexMesh ∧
    profileOne errVertexMesh = fallbackProfile errVertexMesh ∧
    updatePair []
        { baseName := "a", variantName := "b", relationship := "subtracted" } =
      ({ baseName := "a", variantName := "b", relationship := "subtracted" },
        none) ∧
    analyseCrossSection errVertexMesh 0 = [] ∧
    detectFilletsChamfers errVertexMesh = [] ∧
    symOne errVertexMesh = some (errVertexMesh.name, {}) ∧
    symOne noVertexMesh = none ∧
    comparePair [] lowerComp upperComp = [] := by
  obtain ⟨_, h2, h3, _, h5, _, h7, h8, _, _, _, h12, h13, h14, _⟩ :=
    C1_entry_points_isolate_failures
  exact ⟨h2 noVertexMesh rfl, h3 errVertexMesh () rfl,
    h5 [] _ (Or.inl rfl), h7 errVertexMesh 0 () rfl,
    h8 errVertexMesh () rfl, h12 errVertexMesh () rfl,
    h13 noVertexMesh rfl, h14 [] lowerComp upperComp (Or.inl rfl)⟩

end ForgeCad
